import Mathlib

/-!
Verification of the cross-stitch pattern converter
(`src/batch_converter.py`, `src/devops/image_to_pattern.py`,
`src/devops/dmc_colors.py`).

Shallow embedding conventions
=============================

* Colors are `Rgb` records of natural numbers (the sources hold `u8`
  channel values).

* Both sources compare colors with the red-mean weighted Euclidean
  distance (`color_distance` in `batch_converter.py` /
  `dmc_colors.py`, `_weighted_colour_distance_sq` in
  `image_to_pattern.py`).  Every use of the distance in the sources is a
  comparison (`<` inside an arg-min scan), and the real-valued square
  root is strictly monotone, so the embedding works with the exact
  integer `512 * d^2` (`color_distance_sq512` below): `d a < d b` holds
  over the reals iff `color_distance_sq512 a < color_distance_sq512 b`.
  The 1.5x reuse penalty of `map_to_dmc` is likewise exact:
  `1.5 * d a < d b  iff  9 * (512 * d a ^ 2) < 4 * (512 * d b ^ 2)`,
  so penalised comparisons multiply the scaled square by 9 and
  unpenalised ones by 4.  Floating point in the source can at worst
  merge values whose exact squares differ; all concrete inputs used in
  the theorems below keep distances far apart, and the positive
  theorems state the arg-min property the scan implements.

* Python's `list.sort` / `sorted` are stable; they are embedded as the
  structurally recursive stable insertion sort `stableSort`, which is
  extensionally the same function.

* Machine integers: the devops pipeline stores target grids in
  `np.uint16` arrays, which is reflected by explicit `< 65536`
  hypotheses rather than a wrapped integer type.

* Fallible code (Python exceptions, `return None`) is embedded in
  `Option`/`Except`.

* External collaborators (PIL's `Image.quantize`, `unicodedata`) are
  parameters of the embedded functions, exactly at the call boundary
  the code uses them.
-/

/-- The sentinel target value (`NO_STITCH = 65535 = 0xFFFF` in both
sources). -/

def NO_STITCH : ℕ := 65535

/-- An RGB triple.  Channels are `u8` values in the sources. -/

structure Rgb where
  r : ℕ
  g : ℕ
  b : ℕ
deriving DecidableEq, Repr

/-- Exactly `512 * d(c1, c2)^2` where `d` is `color_distance` of
`batch_converter.py` (equivalently `dmc_colors.color_distance`, and the
square root of `_weighted_colour_distance_sq` of
`image_to_pattern.py`):

    r_mean   = (r1 + r2) / 2
    d^2      = (2 + r_mean/256) dr^2 + 4 dg^2 + (2 + (255 - r_mean)/256) db^2

so `512 d^2 = (1024 + r1 + r2) dr^2 + 2048 dg^2 + (1534 - r1 - r2) db^2`. -/

def color_distance_sq512 (c1 c2 : Rgb) : ℤ :=
  (1024 + (c1.r : ℤ) + (c2.r : ℤ)) * ((c1.r : ℤ) - (c2.r : ℤ))^2
    + 2048 * ((c1.g : ℤ) - (c2.g : ℤ))^2
    + (1534 - (c1.r : ℤ) - (c2.r : ℤ)) * ((c1.b : ℤ) - (c2.b : ℤ))^2

/-! ### Stable sorting (embedding of Python's `sorted` / `list.sort`) -/

/-- Insert `x` into `acc` after every element `y` with `le y x`;
used to embed Python's stable sort. -/

def insertStable (le : α → α → Bool) (x : α) : List α → List α
  | [] => [x]
  | y :: ys => if le y x then y :: insertStable le x ys else x :: y :: ys

/-- Tail of the stable insertion sort: insert the elements of the second
list into the (sorted) accumulator, left to right. -/

def insertAllStable (le : α → α → Bool) : List α → List α → List α
  | acc, [] => acc
  | acc, x :: xs => insertAllStable le (insertStable le x acc) xs

/-- Stable insertion sort; extensionally Python's stable `sorted(l, key)`
for a total preorder `le`. -/

def stableSort (le : α → α → Bool) (l : List α) : List α :=
  insertAllStable le [] l

/-! ### First-minimum scan

Both sources repeatedly run the same scan: keep a best value, replace it
when a strictly smaller one appears (`if dist < min_dist:` in
`find_closest_palette_index` and `map_to_dmc`; `np.argmin` in
`_map_quantised_to_dmc`).  The scan returns the first index achieving
the minimum.  `none` stands for `float("inf")` / `np.inf`. -/

/-- Strict comparison with `none = +infinity`: `optLtInf a b` is
"`a < b`". -/

def optLtInf : Option ℤ → Option ℤ → Bool
  | some a, some b => a < b
  | some _, none => true
  | none, _ => false

/-- Scan tail: `i` is the index of the next value, `bi`/`bv` the best
index and value so far. -/

def firstArgminGo : List (Option ℤ) → ℕ → ℕ → Option ℤ → ℕ
  | [], _, bi, _ => bi
  | v :: rest, i, bi, bv =>
      if optLtInf v bv then firstArgminGo rest (i + 1) i v
      else firstArgminGo rest (i + 1) bi bv

/-- First index achieving the minimum of `vals` (with `none = +inf`);
`0` for the empty list, as in the sources (`closest_index = 0` initial
value, `np.argmin` of an all-`inf` vector). -/

def firstArgmin : List (Option ℤ) → ℕ
  | [] => 0
  | v :: rest => firstArgminGo rest 1 0 v

/-! ### The DMC thread catalog -/

/-- One catalog entry (`{code, name, hex}` in `DMC_COLORS`, paired with
its decoded RGB in `DMC_COLORS_RGB`). -/

structure DmcColor where
  code : String
  rgb : Rgb
deriving DecidableEq, Repr

/-- The DMC thread catalog from `batch_converter.py` (`DMC_COLORS` /
`DMC_COLORS_RGB`, itself copied from `src/data/dmcColors.ts`, the same
source-of-truth table that `devops/dmc_colors.py` parses).  Each entry keeps
the `code` and the RGB triple decoded from the `hex` field; the display
`name` strings play no role in any algorithm and are omitted. -/

def DMC_COLORS_RGB : List DmcColor := [
  DmcColor.mk "B5200" (Rgb.mk 255 255 255),
  DmcColor.mk "White" (Rgb.mk 252 252 252),
  DmcColor.mk "Ecru" (Rgb.mk 240 234 218),
  DmcColor.mk "150" (Rgb.mk 171 2 73),
  DmcColor.mk "151" (Rgb.mk 240 206 212),
  DmcColor.mk "152" (Rgb.mk 226 160 153),
  DmcColor.mk "153" (Rgb.mk 230 205 217),
  DmcColor.mk "154" (Rgb.mk 87 36 51),
  DmcColor.mk "155" (Rgb.mk 152 145 182),
  DmcColor.mk "156" (Rgb.mk 163 167 197),
  DmcColor.mk "157" (Rgb.mk 187 195 217),
  DmcColor.mk "158" (Rgb.mk 76 82 110),
  DmcColor.mk "159" (Rgb.mk 199 201 214),
  DmcColor.mk "160" (Rgb.mk 153 159 179),
  DmcColor.mk "161" (Rgb.mk 120 128 160),
  DmcColor.mk "162" (Rgb.mk 219 233 244),
  DmcColor.mk "163" (Rgb.mk 77 157 122),
  DmcColor.mk "164" (Rgb.mk 200 222 194),
  DmcColor.mk "165" (Rgb.mk 239 245 167),
  DmcColor.mk "166" (Rgb.mk 192 200 64),
  DmcColor.mk "167" (Rgb.mk 167 123 75),
  DmcColor.mk "168" (Rgb.mk 209 209 209),
  DmcColor.mk "169" (Rgb.mk 132 132 132),
  DmcColor.mk "208" (Rgb.mk 131 88 152),
  DmcColor.mk "209" (Rgb.mk 163 116 172),
  DmcColor.mk "210" (Rgb.mk 197 159 201),
  DmcColor.mk "211" (Rgb.mk 227 199 228),
  DmcColor.mk "221" (Rgb.mk 136 60 62),
  DmcColor.mk "223" (Rgb.mk 204 142 142),
  DmcColor.mk "224" (Rgb.mk 235 187 187),
  DmcColor.mk "225" (Rgb.mk 255 223 217),
  DmcColor.mk "300" (Rgb.mk 111 47 0),
  DmcColor.mk "301" (Rgb.mk 179 95 43),
  DmcColor.mk "304" (Rgb.mk 183 0 40),
  DmcColor.mk "307" (Rgb.mk 253 237 84),
  DmcColor.mk "309" (Rgb.mk 186 48 76),
  DmcColor.mk "310" (Rgb.mk 0 0 0),
  DmcColor.mk "311" (Rgb.mk 28 80 102),
  DmcColor.mk "312" (Rgb.mk 54 94 125),
  DmcColor.mk "315" (Rgb.mk 129 72 84),
  DmcColor.mk "316" (Rgb.mk 184 115 130),
  DmcColor.mk "317" (Rgb.mk 108 108 108),
  DmcColor.mk "318" (Rgb.mk 171 171 171),
  DmcColor.mk "319" (Rgb.mk 32 94 59),
  DmcColor.mk "320" (Rgb.mk 105 165 105),
  DmcColor.mk "321" (Rgb.mk 199 42 53),
  DmcColor.mk "322" (Rgb.mk 90 135 158),
  DmcColor.mk "326" (Rgb.mk 179 56 80),
  DmcColor.mk "327" (Rgb.mk 99 54 114),
  DmcColor.mk "333" (Rgb.mk 92 84 120),
  DmcColor.mk "334" (Rgb.mk 115 159 195),
  DmcColor.mk "335" (Rgb.mk 238 84 110),
  DmcColor.mk "336" (Rgb.mk 37 59 115),
  DmcColor.mk "340" (Rgb.mk 173 167 199),
  DmcColor.mk "341" (Rgb.mk 183 181 208),
  DmcColor.mk "347" (Rgb.mk 191 45 45),
  DmcColor.mk "349" (Rgb.mk 210 16 53),
  DmcColor.mk "350" (Rgb.mk 224 72 72),
  DmcColor.mk "351" (Rgb.mk 233 106 103),
  DmcColor.mk "352" (Rgb.mk 253 156 151),
  DmcColor.mk "353" (Rgb.mk 254 215 204),
  DmcColor.mk "355" (Rgb.mk 152 66 54),
  DmcColor.mk "356" (Rgb.mk 197 106 90),
  DmcColor.mk "367" (Rgb.mk 97 126 90),
  DmcColor.mk "368" (Rgb.mk 166 208 161),
  DmcColor.mk "369" (Rgb.mk 214 232 214),
  DmcColor.mk "370" (Rgb.mk 184 144 88),
  DmcColor.mk "371" (Rgb.mk 191 154 100),
  DmcColor.mk "372" (Rgb.mk 204 168 109),
  DmcColor.mk "400" (Rgb.mk 143 70 32),
  DmcColor.mk "402" (Rgb.mk 247 167 119),
  DmcColor.mk "407" (Rgb.mk 179 126 105),
  DmcColor.mk "413" (Rgb.mk 91 91 91),
  DmcColor.mk "414" (Rgb.mk 140 140 140),
  DmcColor.mk "415" (Rgb.mk 201 201 201),
  DmcColor.mk "420" (Rgb.mk 160 106 48),
  DmcColor.mk "422" (Rgb.mk 198 151 106),
  DmcColor.mk "433" (Rgb.mk 122 74 31),
  DmcColor.mk "434" (Rgb.mk 152 89 47),
  DmcColor.mk "435" (Rgb.mk 185 116 62),
  DmcColor.mk "436" (Rgb.mk 203 139 78),
  DmcColor.mk "437" (Rgb.mk 228 188 128),
  DmcColor.mk "444" (Rgb.mk 255 214 0),
  DmcColor.mk "445" (Rgb.mk 255 251 145),
  DmcColor.mk "451" (Rgb.mk 144 132 130),
  DmcColor.mk "452" (Rgb.mk 184 171 171),
  DmcColor.mk "453" (Rgb.mk 206 198 198),
  DmcColor.mk "469" (Rgb.mk 114 138 59),
  DmcColor.mk "470" (Rgb.mk 148 171 78),
  DmcColor.mk "471" (Rgb.mk 174 193 81),
  DmcColor.mk "472" (Rgb.mk 216 238 167),
  DmcColor.mk "498" (Rgb.mk 167 19 44),
  DmcColor.mk "500" (Rgb.mk 4 63 47),
  DmcColor.mk "501" (Rgb.mk 59 111 93),
  DmcColor.mk "502" (Rgb.mk 91 150 128),
  DmcColor.mk "503" (Rgb.mk 126 181 161),
  DmcColor.mk "504" (Rgb.mk 202 222 201),
  DmcColor.mk "505" (Rgb.mk 51 130 98),
  DmcColor.mk "517" (Rgb.mk 59 120 149),
  DmcColor.mk "518" (Rgb.mk 79 147 167),
  DmcColor.mk "519" (Rgb.mk 126 181 213),
  DmcColor.mk "520" (Rgb.mk 102 107 76),
  DmcColor.mk "522" (Rgb.mk 150 158 126),
  DmcColor.mk "523" (Rgb.mk 171 179 147),
  DmcColor.mk "524" (Rgb.mk 196 203 166),
  DmcColor.mk "535" (Rgb.mk 99 99 99),
  DmcColor.mk "543" (Rgb.mk 242 223 209),
  DmcColor.mk "550" (Rgb.mk 92 32 88),
  DmcColor.mk "552" (Rgb.mk 128 58 122),
  DmcColor.mk "553" (Rgb.mk 163 99 158),
  DmcColor.mk "554" (Rgb.mk 219 159 218),
  DmcColor.mk "561" (Rgb.mk 45 110 92),
  DmcColor.mk "562" (Rgb.mk 83 161 126),
  DmcColor.mk "563" (Rgb.mk 143 203 170),
  DmcColor.mk "564" (Rgb.mk 168 219 195),
  DmcColor.mk "580" (Rgb.mk 136 140 47),
  DmcColor.mk "581" (Rgb.mk 167 171 60),
  DmcColor.mk "597" (Rgb.mk 91 180 192),
  DmcColor.mk "598" (Rgb.mk 144 211 216),
  DmcColor.mk "600" (Rgb.mk 205 46 95),
  DmcColor.mk "601" (Rgb.mk 209 53 112),
  DmcColor.mk "602" (Rgb.mk 226 71 119),
  DmcColor.mk "603" (Rgb.mk 255 115 152),
  DmcColor.mk "604" (Rgb.mk 255 157 182),
  DmcColor.mk "605" (Rgb.mk 255 193 206),
  DmcColor.mk "606" (Rgb.mk 250 57 9),
  DmcColor.mk "608" (Rgb.mk 253 102 49),
  DmcColor.mk "610" (Rgb.mk 121 97 64),
  DmcColor.mk "611" (Rgb.mk 150 118 84),
  DmcColor.mk "612" (Rgb.mk 188 158 110),
  DmcColor.mk "613" (Rgb.mk 220 201 167),
  DmcColor.mk "632" (Rgb.mk 135 69 48),
  DmcColor.mk "640" (Rgb.mk 133 111 94),
  DmcColor.mk "642" (Rgb.mk 166 149 134),
  DmcColor.mk "644" (Rgb.mk 221 214 199),
  DmcColor.mk "645" (Rgb.mk 106 101 97),
  DmcColor.mk "646" (Rgb.mk 139 137 133),
  DmcColor.mk "647" (Rgb.mk 176 175 171),
  DmcColor.mk "648" (Rgb.mk 189 187 183),
  DmcColor.mk "666" (Rgb.mk 227 23 45),
  DmcColor.mk "676" (Rgb.mk 230 198 119),
  DmcColor.mk "677" (Rgb.mk 245 232 198),
  DmcColor.mk "680" (Rgb.mk 188 136 32),
  DmcColor.mk "699" (Rgb.mk 5 110 29),
  DmcColor.mk "700" (Rgb.mk 7 127 34),
  DmcColor.mk "701" (Rgb.mk 63 148 52),
  DmcColor.mk "702" (Rgb.mk 71 165 70),
  DmcColor.mk "703" (Rgb.mk 123 181 94),
  DmcColor.mk "704" (Rgb.mk 158 194 63),
  DmcColor.mk "712" (Rgb.mk 255 253 227),
  DmcColor.mk "718" (Rgb.mk 156 36 98),
  DmcColor.mk "720" (Rgb.mk 229 82 26),
  DmcColor.mk "721" (Rgb.mk 242 120 66),
  DmcColor.mk "722" (Rgb.mk 247 151 122),
  DmcColor.mk "725" (Rgb.mk 255 200 64),
  DmcColor.mk "726" (Rgb.mk 253 215 85),
  DmcColor.mk "727" (Rgb.mk 255 241 165),
  DmcColor.mk "728" (Rgb.mk 228 168 36),
  DmcColor.mk "729" (Rgb.mk 208 162 58),
  DmcColor.mk "730" (Rgb.mk 130 123 26),
  DmcColor.mk "731" (Rgb.mk 145 142 27),
  DmcColor.mk "732" (Rgb.mk 148 142 37),
  DmcColor.mk "733" (Rgb.mk 189 186 63),
  DmcColor.mk "734" (Rgb.mk 199 195 110),
  DmcColor.mk "738" (Rgb.mk 236 204 157),
  DmcColor.mk "739" (Rgb.mk 245 227 206),
  DmcColor.mk "740" (Rgb.mk 255 131 19),
  DmcColor.mk "741" (Rgb.mk 255 159 38),
  DmcColor.mk "742" (Rgb.mk 255 191 73),
  DmcColor.mk "743" (Rgb.mk 255 205 72),
  DmcColor.mk "744" (Rgb.mk 255 228 117),
  DmcColor.mk "745" (Rgb.mk 255 233 162),
  DmcColor.mk "746" (Rgb.mk 255 248 231),
  DmcColor.mk "747" (Rgb.mk 229 244 246),
  DmcColor.mk "754" (Rgb.mk 247 202 179),
  DmcColor.mk "758" (Rgb.mk 238 181 163),
  DmcColor.mk "760" (Rgb.mk 245 149 147),
  DmcColor.mk "761" (Rgb.mk 255 185 185),
  DmcColor.mk "762" (Rgb.mk 236 236 236),
  DmcColor.mk "772" (Rgb.mk 228 236 186),
  DmcColor.mk "775" (Rgb.mk 217 233 243),
  DmcColor.mk "776" (Rgb.mk 252 164 180),
  DmcColor.mk "777" (Rgb.mk 143 0 66),
  DmcColor.mk "778" (Rgb.mk 223 184 189),
  DmcColor.mk "779" (Rgb.mk 107 65 54),
  DmcColor.mk "780" (Rgb.mk 148 100 38),
  DmcColor.mk "781" (Rgb.mk 166 110 20),
  DmcColor.mk "782" (Rgb.mk 174 119 32),
  DmcColor.mk "783" (Rgb.mk 206 145 39),
  DmcColor.mk "791" (Rgb.mk 70 74 121),
  DmcColor.mk "792" (Rgb.mk 85 95 141),
  DmcColor.mk "793" (Rgb.mk 112 135 163),
  DmcColor.mk "794" (Rgb.mk 143 174 192),
  DmcColor.mk "796" (Rgb.mk 17 61 115),
  DmcColor.mk "797" (Rgb.mk 19 70 165),
  DmcColor.mk "798" (Rgb.mk 70 106 169),
  DmcColor.mk "799" (Rgb.mk 116 163 205),
  DmcColor.mk "800" (Rgb.mk 192 214 234),
  DmcColor.mk "801" (Rgb.mk 92 55 22),
  DmcColor.mk "803" (Rgb.mk 44 73 120),
  DmcColor.mk "806" (Rgb.mk 48 163 173),
  DmcColor.mk "807" (Rgb.mk 100 184 189),
  DmcColor.mk "809" (Rgb.mk 148 184 213),
  DmcColor.mk "813" (Rgb.mk 161 198 224),
  DmcColor.mk "814" (Rgb.mk 123 0 39),
  DmcColor.mk "815" (Rgb.mk 136 13 46),
  DmcColor.mk "816" (Rgb.mk 151 11 47),
  DmcColor.mk "817" (Rgb.mk 187 13 29),
  DmcColor.mk "818" (Rgb.mk 255 223 229),
  DmcColor.mk "819" (Rgb.mk 255 229 236),
  DmcColor.mk "820" (Rgb.mk 14 46 110),
  DmcColor.mk "822" (Rgb.mk 232 227 215),
  DmcColor.mk "823" (Rgb.mk 33 52 102),
  DmcColor.mk "824" (Rgb.mk 58 93 135),
  DmcColor.mk "825" (Rgb.mk 71 122 171),
  DmcColor.mk "826" (Rgb.mk 107 159 197),
  DmcColor.mk "827" (Rgb.mk 185 212 233),
  DmcColor.mk "828" (Rgb.mk 197 225 239),
  DmcColor.mk "829" (Rgb.mk 126 106 33),
  DmcColor.mk "830" (Rgb.mk 142 122 48),
  DmcColor.mk "831" (Rgb.mk 170 144 60),
  DmcColor.mk "832" (Rgb.mk 192 156 46),
  DmcColor.mk "833" (Rgb.mk 201 172 91),
  DmcColor.mk "834" (Rgb.mk 219 189 107),
  DmcColor.mk "838" (Rgb.mk 92 63 42),
  DmcColor.mk "839" (Rgb.mk 110 78 53),
  DmcColor.mk "840" (Rgb.mk 154 127 102),
  DmcColor.mk "841" (Rgb.mk 184 161 136),
  DmcColor.mk "842" (Rgb.mk 215 201 180),
  DmcColor.mk "844" (Rgb.mk 84 84 84),
  DmcColor.mk "869" (Rgb.mk 131 95 46),
  DmcColor.mk "890" (Rgb.mk 23 73 36),
  DmcColor.mk "891" (Rgb.mk 255 87 115),
  DmcColor.mk "892" (Rgb.mk 255 107 133),
  DmcColor.mk "893" (Rgb.mk 252 144 167),
  DmcColor.mk "894" (Rgb.mk 255 181 194),
  DmcColor.mk "895" (Rgb.mk 27 81 24),
  DmcColor.mk "898" (Rgb.mk 74 39 16),
  DmcColor.mk "899" (Rgb.mk 242 118 136),
  DmcColor.mk "900" (Rgb.mk 214 83 0),
  DmcColor.mk "902" (Rgb.mk 130 0 36),
  DmcColor.mk "904" (Rgb.mk 85 113 34),
  DmcColor.mk "905" (Rgb.mk 108 139 32),
  DmcColor.mk "906" (Rgb.mk 127 174 32),
  DmcColor.mk "907" (Rgb.mk 196 215 79),
  DmcColor.mk "909" (Rgb.mk 12 104 71),
  DmcColor.mk "910" (Rgb.mk 24 127 84),
  DmcColor.mk "911" (Rgb.mk 24 144 101),
  DmcColor.mk "912" (Rgb.mk 27 161 118),
  DmcColor.mk "913" (Rgb.mk 109 183 149),
  DmcColor.mk "915" (Rgb.mk 130 0 67),
  DmcColor.mk "917" (Rgb.mk 155 42 109),
  DmcColor.mk "918" (Rgb.mk 130 64 40),
  DmcColor.mk "919" (Rgb.mk 166 81 46),
  DmcColor.mk "920" (Rgb.mk 172 85 51),
  DmcColor.mk "921" (Rgb.mk 198 107 61),
  DmcColor.mk "922" (Rgb.mk 226 124 73),
  DmcColor.mk "924" (Rgb.mk 86 108 98),
  DmcColor.mk "926" (Rgb.mk 152 175 170),
  DmcColor.mk "927" (Rgb.mk 189 206 203),
  DmcColor.mk "928" (Rgb.mk 221 230 227),
  DmcColor.mk "930" (Rgb.mk 69 89 127),
  DmcColor.mk "931" (Rgb.mk 106 127 156),
  DmcColor.mk "932" (Rgb.mk 162 183 202),
  DmcColor.mk "934" (Rgb.mk 58 62 42),
  DmcColor.mk "935" (Rgb.mk 73 83 50),
  DmcColor.mk "936" (Rgb.mk 76 83 46),
  DmcColor.mk "937" (Rgb.mk 98 115 65),
  DmcColor.mk "938" (Rgb.mk 54 35 18),
  DmcColor.mk "939" (Rgb.mk 27 40 80),
  DmcColor.mk "943" (Rgb.mk 61 164 148),
  DmcColor.mk "945" (Rgb.mk 251 199 163),
  DmcColor.mk "946" (Rgb.mk 235 99 7),
  DmcColor.mk "947" (Rgb.mk 255 123 49),
  DmcColor.mk "948" (Rgb.mk 254 231 214),
  DmcColor.mk "950" (Rgb.mk 238 209 190),
  DmcColor.mk "951" (Rgb.mk 255 228 202),
  DmcColor.mk "954" (Rgb.mk 136 201 167),
  DmcColor.mk "955" (Rgb.mk 165 224 192),
  DmcColor.mk "956" (Rgb.mk 255 106 118),
  DmcColor.mk "957" (Rgb.mk 255 159 171),
  DmcColor.mk "958" (Rgb.mk 61 184 163),
  DmcColor.mk "959" (Rgb.mk 89 199 179),
  DmcColor.mk "961" (Rgb.mk 207 102 121),
  DmcColor.mk "962" (Rgb.mk 231 122 145),
  DmcColor.mk "963" (Rgb.mk 255 212 218),
  DmcColor.mk "964" (Rgb.mk 169 226 218),
  DmcColor.mk "966" (Rgb.mk 185 217 184),
  DmcColor.mk "967" (Rgb.mk 255 205 193),
  DmcColor.mk "970" (Rgb.mk 255 127 38),
  DmcColor.mk "971" (Rgb.mk 255 119 0),
  DmcColor.mk "972" (Rgb.mk 255 181 8),
  DmcColor.mk "973" (Rgb.mk 255 244 0),
  DmcColor.mk "975" (Rgb.mk 145 82 36),
  DmcColor.mk "976" (Rgb.mk 194 131 70),
  DmcColor.mk "977" (Rgb.mk 220 156 86),
  DmcColor.mk "986" (Rgb.mk 64 106 58),
  DmcColor.mk "987" (Rgb.mk 88 127 80),
  DmcColor.mk "988" (Rgb.mk 115 160 99),
  DmcColor.mk "989" (Rgb.mk 141 183 126),
  DmcColor.mk "991" (Rgb.mk 71 124 115),
  DmcColor.mk "992" (Rgb.mk 111 201 184),
  DmcColor.mk "993" (Rgb.mk 144 213 197),
  DmcColor.mk "995" (Rgb.mk 38 163 212),
  DmcColor.mk "996" (Rgb.mk 48 193 238),
  DmcColor.mk "3011" (Rgb.mk 137 135 82),
  DmcColor.mk "3012" (Rgb.mk 166 164 106),
  DmcColor.mk "3013" (Rgb.mk 184 184 136),
  DmcColor.mk "3021" (Rgb.mk 76 68 60),
  DmcColor.mk "3022" (Rgb.mk 140 132 114),
  DmcColor.mk "3023" (Rgb.mk 181 173 156),
  DmcColor.mk "3024" (Rgb.mk 233 230 224),
  DmcColor.mk "3031" (Rgb.mk 76 62 42),
  DmcColor.mk "3032" (Rgb.mk 179 155 124),
  DmcColor.mk "3033" (Rgb.mk 226 215 199),
  DmcColor.mk "3041" (Rgb.mk 156 127 142),
  DmcColor.mk "3042" (Rgb.mk 183 163 175),
  DmcColor.mk "3045" (Rgb.mk 188 150 88),
  DmcColor.mk "3046" (Rgb.mk 214 187 130),
  DmcColor.mk "3047" (Rgb.mk 231 215 172),
  DmcColor.mk "3051" (Rgb.mk 95 105 73),
  DmcColor.mk "3052" (Rgb.mk 137 145 113),
  DmcColor.mk "3053" (Rgb.mk 156 165 134),
  DmcColor.mk "3064" (Rgb.mk 197 140 114),
  DmcColor.mk "3072" (Rgb.mk 232 231 229),
  DmcColor.mk "3078" (Rgb.mk 253 249 204),
  DmcColor.mk "3325" (Rgb.mk 185 211 232),
  DmcColor.mk "3326" (Rgb.mk 251 180 188),
  DmcColor.mk "3328" (Rgb.mk 227 109 107),
  DmcColor.mk "3340" (Rgb.mk 255 139 104),
  DmcColor.mk "3341" (Rgb.mk 252 171 140),
  DmcColor.mk "3345" (Rgb.mk 27 96 34),
  DmcColor.mk "3346" (Rgb.mk 64 106 51),
  DmcColor.mk "3347" (Rgb.mk 113 158 78),
  DmcColor.mk "3348" (Rgb.mk 204 234 158),
  DmcColor.mk "3350" (Rgb.mk 188 67 101),
  DmcColor.mk "3354" (Rgb.mk 228 166 169),
  DmcColor.mk "3362" (Rgb.mk 94 109 79),
  DmcColor.mk "3363" (Rgb.mk 114 130 102),
  DmcColor.mk "3364" (Rgb.mk 131 141 102),
  DmcColor.mk "3371" (Rgb.mk 28 17 8),
  DmcColor.mk "3607" (Rgb.mk 197 53 125),
  DmcColor.mk "3608" (Rgb.mk 234 135 180),
  DmcColor.mk "3609" (Rgb.mk 244 166 198),
  DmcColor.mk "3685" (Rgb.mk 136 37 77),
  DmcColor.mk "3687" (Rgb.mk 201 103 133),
  DmcColor.mk "3688" (Rgb.mk 232 160 178),
  DmcColor.mk "3689" (Rgb.mk 251 195 208),
  DmcColor.mk "3705" (Rgb.mk 255 110 122),
  DmcColor.mk "3706" (Rgb.mk 255 150 157),
  DmcColor.mk "3708" (Rgb.mk 255 190 195),
  DmcColor.mk "3712" (Rgb.mk 241 131 122),
  DmcColor.mk "3713" (Rgb.mk 255 219 216),
  DmcColor.mk "3716" (Rgb.mk 255 189 198),
  DmcColor.mk "3721" (Rgb.mk 161 76 90),
  DmcColor.mk "3722" (Rgb.mk 188 103 105),
  DmcColor.mk "3726" (Rgb.mk 157 89 104),
  DmcColor.mk "3727" (Rgb.mk 219 172 183),
  DmcColor.mk "3731" (Rgb.mk 216 102 128),
  DmcColor.mk "3733" (Rgb.mk 232 137 156),
  DmcColor.mk "3740" (Rgb.mk 120 96 116),
  DmcColor.mk "3743" (Rgb.mk 215 203 214),
  DmcColor.mk "3746" (Rgb.mk 119 111 164),
  DmcColor.mk "3747" (Rgb.mk 211 214 235),
  DmcColor.mk "3750" (Rgb.mk 62 86 113),
  DmcColor.mk "3752" (Rgb.mk 198 213 225),
  DmcColor.mk "3753" (Rgb.mk 219 231 237),
  DmcColor.mk "3755" (Rgb.mk 159 195 218),
  DmcColor.mk "3756" (Rgb.mk 238 251 253),
  DmcColor.mk "3760" (Rgb.mk 62 141 165),
  DmcColor.mk "3761" (Rgb.mk 174 215 229),
  DmcColor.mk "3765" (Rgb.mk 52 139 149),
  DmcColor.mk "3766" (Rgb.mk 153 204 211),
  DmcColor.mk "3768" (Rgb.mk 101 123 122),
  DmcColor.mk "3770" (Rgb.mk 255 244 227),
  DmcColor.mk "3771" (Rgb.mk 244 189 165),
  DmcColor.mk "3772" (Rgb.mk 160 99 78),
  DmcColor.mk "3773" (Rgb.mk 208 155 130),
  DmcColor.mk "3774" (Rgb.mk 245 225 214),
  DmcColor.mk "3776" (Rgb.mk 207 113 49),
  DmcColor.mk "3777" (Rgb.mk 134 50 37),
  DmcColor.mk "3778" (Rgb.mk 217 138 121),
  DmcColor.mk "3779" (Rgb.mk 248 201 187),
  DmcColor.mk "3781" (Rgb.mk 107 85 64),
  DmcColor.mk "3782" (Rgb.mk 210 187 157),
  DmcColor.mk "3787" (Rgb.mk 110 101 88),
  DmcColor.mk "3790" (Rgb.mk 116 102 85),
  DmcColor.mk "3799" (Rgb.mk 66 66 66),
  DmcColor.mk "3801" (Rgb.mk 231 73 103),
  DmcColor.mk "3802" (Rgb.mk 113 64 80),
  DmcColor.mk "3803" (Rgb.mk 171 51 87),
  DmcColor.mk "3804" (Rgb.mk 224 40 118),
  DmcColor.mk "3805" (Rgb.mk 243 71 138),
  DmcColor.mk "3806" (Rgb.mk 255 126 176),
  DmcColor.mk "3807" (Rgb.mk 96 126 158),
  DmcColor.mk "3808" (Rgb.mk 54 105 112),
  DmcColor.mk "3809" (Rgb.mk 63 143 148),
  DmcColor.mk "3810" (Rgb.mk 72 168 173),
  DmcColor.mk "3811" (Rgb.mk 188 227 230),
  DmcColor.mk "3812" (Rgb.mk 47 158 138),
  DmcColor.mk "3813" (Rgb.mk 178 214 198),
  DmcColor.mk "3814" (Rgb.mk 80 143 124),
  DmcColor.mk "3815" (Rgb.mk 71 122 96),
  DmcColor.mk "3816" (Rgb.mk 101 165 129),
  DmcColor.mk "3817" (Rgb.mk 155 211 180),
  DmcColor.mk "3818" (Rgb.mk 17 87 64),
  DmcColor.mk "3819" (Rgb.mk 224 232 104),
  DmcColor.mk "3820" (Rgb.mk 223 178 62),
  DmcColor.mk "3821" (Rgb.mk 243 200 85),
  DmcColor.mk "3822" (Rgb.mk 246 215 126),
  DmcColor.mk "3823" (Rgb.mk 255 253 227),
  DmcColor.mk "3824" (Rgb.mk 254 210 196),
  DmcColor.mk "3825" (Rgb.mk 254 185 119),
  DmcColor.mk "3826" (Rgb.mk 173 115 64),
  DmcColor.mk "3827" (Rgb.mk 247 187 119),
  DmcColor.mk "3828" (Rgb.mk 183 140 88),
  DmcColor.mk "3829" (Rgb.mk 170 122 25),
  DmcColor.mk "3830" (Rgb.mk 188 97 72),
  DmcColor.mk "3831" (Rgb.mk 180 51 84),
  DmcColor.mk "3832" (Rgb.mk 219 83 110),
  DmcColor.mk "3833" (Rgb.mk 234 127 145),
  DmcColor.mk "3834" (Rgb.mk 114 66 100),
  DmcColor.mk "3835" (Rgb.mk 148 106 136),
  DmcColor.mk "3836" (Rgb.mk 186 146 175),
  DmcColor.mk "3837" (Rgb.mk 108 52 97),
  DmcColor.mk "3838" (Rgb.mk 92 120 163),
  DmcColor.mk "3839" (Rgb.mk 123 152 189),
  DmcColor.mk "3840" (Rgb.mk 176 196 219),
  DmcColor.mk "3841" (Rgb.mk 205 223 237),
  DmcColor.mk "3842" (Rgb.mk 50 117 142),
  DmcColor.mk "3843" (Rgb.mk 20 170 210),
  DmcColor.mk "3844" (Rgb.mk 18 169 177),
  DmcColor.mk "3845" (Rgb.mk 4 196 202),
  DmcColor.mk "3846" (Rgb.mk 6 227 232),
  DmcColor.mk "3847" (Rgb.mk 52 120 115),
  DmcColor.mk "3848" (Rgb.mk 85 148 144),
  DmcColor.mk "3849" (Rgb.mk 82 179 168),
  DmcColor.mk "3850" (Rgb.mk 55 134 116),
  DmcColor.mk "3851" (Rgb.mk 73 169 137),
  DmcColor.mk "3852" (Rgb.mk 205 157 43),
  DmcColor.mk "3853" (Rgb.mk 242 151 70),
  DmcColor.mk "3854" (Rgb.mk 242 173 108),
  DmcColor.mk "3855" (Rgb.mk 250 211 150),
  DmcColor.mk "3856" (Rgb.mk 255 193 158),
  DmcColor.mk "3857" (Rgb.mk 104 53 44),
  DmcColor.mk "3858" (Rgb.mk 150 80 68),
  DmcColor.mk "3859" (Rgb.mk 186 139 124),
  DmcColor.mk "3860" (Rgb.mk 122 94 85),
  DmcColor.mk "3861" (Rgb.mk 166 135 124),
  DmcColor.mk "3862" (Rgb.mk 138 109 81),
  DmcColor.mk "3863" (Rgb.mk 167 139 112),
  DmcColor.mk "3864" (Rgb.mk 203 185 158),
  DmcColor.mk "3865" (Rgb.mk 250 248 244),
  DmcColor.mk "3866" (Rgb.mk 250 244 236)]

/-! ### Nearest-palette lookup (`find_closest_palette_index`) -/

/-- Embedding of `find_closest_palette_index` of `batch_converter.py`:
scan the palette keeping the first index of strictly smallest
`color_distance`; `0` for an empty palette (`closest_index = 0`
initial value). -/

def find_closest_palette_index (rgb : Rgb) (palette : List Rgb) : ℕ :=
  firstArgmin (palette.map (fun p => some (color_distance_sq512 rgb p)))

/-! ### Catalog mapping with reuse penalty (`map_to_dmc`) -/

/-- The penalised comparison key of `map_to_dmc`: the code multiplies
the distance by `1.5` when the entry's code was already assigned.
Comparing `1.5 * d` and `d'` over the reals is comparing
`9 * (512 d^2)` and `4 * (512 d'^2)`, so the scaled squared distance is
multiplied by `9` for already-used entries and by `4` otherwise. -/

def map_to_dmc_adjusted (used : List String) (c : Rgb) (e : DmcColor) : ℤ :=
  (if e.code ∈ used then 9 else 4) * color_distance_sq512 c e.rgb

/-- Index of the catalog entry chosen by the inner scan of
`map_to_dmc` for one quantized color, given the codes already used. -/

def map_to_dmc_choice (used : List String) (c : Rgb) : ℕ :=
  firstArgmin (DMC_COLORS_RGB.map (fun e => some (map_to_dmc_adjusted used c e)))

/-- Tail of `map_to_dmc`: process the remaining quantized colors,
threading the set of used codes (the `used_dmc` set of the source).
The `none` branch mirrors the `if closest_dmc:` guard of the source
(it can only trigger on an empty catalog). -/

def map_to_dmc_go : List Rgb → List String → List (DmcColor × Rgb)
  | [], _ => []
  | c :: rest, used =>
      match DMC_COLORS_RGB[map_to_dmc_choice used c]? with
      | none => map_to_dmc_go rest used
      | some e => (e, c) :: map_to_dmc_go rest (e.code :: used)

/-- Embedding of `map_to_dmc` of `batch_converter.py`.  Each returned
pair is `(catalog entry, original quantized rgb)`. -/

def map_to_dmc (qs : List Rgb) : List (DmcColor × Rgb) :=
  map_to_dmc_go qs []

/-! ### Median-cut quantization (`median_cut` of `batch_converter.py`) -/

/-- One distinct observed color and its pixel frequency
(`ColorCount`). -/

structure ColorCount where
  rgb : Rgb
  count : ℕ
deriving DecidableEq, Repr

/-- `ColorBox.r_min` (computed by `calculate_bounds`, starting from
255). -/

def box_r_min (box : List ColorCount) : ℕ := box.foldl (fun m c => min m c.rgb.r) 255

/-- `ColorBox.r_max` (starting from 0). -/

def box_r_max (box : List ColorCount) : ℕ := box.foldl (fun m c => max m c.rgb.r) 0

/-- `ColorBox.g_min`. -/

def box_g_min (box : List ColorCount) : ℕ := box.foldl (fun m c => min m c.rgb.g) 255

/-- `ColorBox.g_max`. -/

def box_g_max (box : List ColorCount) : ℕ := box.foldl (fun m c => max m c.rgb.g) 0

/-- `ColorBox.b_min`. -/

def box_b_min (box : List ColorCount) : ℕ := box.foldl (fun m c => min m c.rgb.b) 255

/-- `ColorBox.b_max`. -/

def box_b_max (box : List ColorCount) : ℕ := box.foldl (fun m c => max m c.rgb.b) 0

/-- `ColorBox.volume`: the largest per-channel range. -/

def box_volume (box : List ColorCount) : ℕ :=
  max (box_r_max box - box_r_min box)
    (max (box_g_max box - box_g_min box) (box_b_max box - box_b_min box))

/-- The channel `median_cut` splits along (`channel = 0;
if g_range >= r_range and g_range >= b_range: channel = 1
elif b_range >= r_range and b_range >= g_range: channel = 2`). -/

def split_channel (box : List ColorCount) : ℕ :=
  let r_range := box_r_max box - box_r_min box
  let g_range := box_g_max box - box_g_min box
  let b_range := box_b_max box - box_b_min box
  if r_range ≤ g_range ∧ b_range ≤ g_range then 1
  else if r_range ≤ b_range ∧ g_range ≤ b_range then 2
  else 0

/-- Indexing `c.rgb[channel]` in the sort key. -/

def rgb_channel (c : Rgb) : ℕ → ℕ
  | 0 => c.r
  | 1 => c.g
  | _ => c.b

/-- The selection scan of `median_cut` (`max_volume = 0;
max_box_index = -1; for i, box ...: if box.volume > max_volume and
len(box.colors) > 1: ...`); `none` is `-1`. -/

def select_box_go : List (List ColorCount) → ℕ → Option ℕ → ℕ → Option ℕ
  | [], _, bi, _ => bi
  | b :: rest, i, bi, bv =>
      if bv < box_volume b ∧ 1 < b.length then
        select_box_go rest (i + 1) (some i) (box_volume b)
      else select_box_go rest (i + 1) bi bv

/-- Index of the box `median_cut` splits next, if any. -/

def select_box (boxes : List (List ColorCount)) : Option ℕ :=
  select_box_go boxes 0 none 0

/-- The split-point scan (`cum_count >= total_count / 2`, i.e.
`2 * cum_count >= total_count` exactly; the split index is
`max(1, i)`).  On a nonempty box the scan always fires, because the
final cumulative count equals the total. -/

def median_index_go (total : ℕ) : List ColorCount → ℕ → ℕ → ℕ
  | [], _, _ => 0
  | c :: rest, i, cum =>
      if total ≤ 2 * (cum + c.count) then max 1 i
      else median_index_go total rest (i + 1) (cum + c.count)

/-- `total_count = sum(c.count for c in box_to_split.colors)`. -/

def box_total_count (box : List ColorCount) : ℕ := (box.map (·.count)).sum

/-- The split index of a (sorted) box. -/

def median_index (box : List ColorCount) : ℕ :=
  median_index_go (box_total_count box) box 0 0

/-- Splitting one box: sort by the chosen channel (Python's stable
sort), cut at the median index, and keep the nonempty halves
(`if colors1: ... if colors2: ...`). -/

def split_box (box : List ColorCount) : List (List ColorCount) :=
  let ch := split_channel box
  let sorted := stableSort (fun a b => rgb_channel a.rgb ch ≤ rgb_channel b.rgb ch) box
  let m := median_index sorted
  let colors1 := sorted.take m
  let colors2 := sorted.drop m
  (if colors1 = [] then [] else [colors1]) ++ (if colors2 = [] then [] else [colors2])

/-- One iteration of `median_cut`'s `while` loop body: pick the box to
split (`none` mirrors `max_box_index == -1`, i.e. `break`), remove it
(`boxes.pop`), and append the halves. -/

def median_cut_step (boxes : List (List ColorCount)) : Option (List (List ColorCount)) :=
  match select_box boxes with
  | none => none
  | some i =>
      match boxes[i]? with
      | none => none
      | some box => some (boxes.eraseIdx i ++ split_box box)

/-- The `while len(boxes) < num_colors` loop.  Each successful step
removes one box and appends its two nonempty halves, so the box count
grows by one per iteration; starting from a single box, `num_colors`
units of fuel are enough for the loop to reach its exit condition. -/

def median_cut_loop (num_colors : ℕ) : ℕ → List (List ColorCount) → List (List ColorCount)
  | 0, boxes => boxes
  | fuel + 1, boxes =>
      if boxes.length < num_colors then
        match median_cut_step boxes with
        | none => boxes
        | some boxes2 => median_cut_loop num_colors fuel boxes2
      else boxes

/-- Round-half-to-even division: Python's `round(num / den)` computed
exactly (the float quotient is close enough to the rational for every
input in this development; `den = 0` cannot be reached, a Python
`ZeroDivisionError`). -/

def round_half_to_even (num den : ℕ) : ℕ :=
  if den = 0 then 0
  else
    let q := num / den
    let r := num % den
    if 2 * r < den then q
    else if den < 2 * r then q + 1
    else if q % 2 = 0 then q else q + 1

/-- The count-weighted rounded average color of a final box. -/

def box_average (box : List ColorCount) : Rgb :=
  let tc := box_total_count box
  Rgb.mk (round_half_to_even ((box.map (fun c => c.rgb.r * c.count)).sum) tc)
    (round_half_to_even ((box.map (fun c => c.rgb.g * c.count)).sum) tc)
    (round_half_to_even ((box.map (fun c => c.rgb.b * c.count)).sum) tc)

/-- Embedding of `median_cut` of `batch_converter.py`. -/

def median_cut (color_counts : List ColorCount) (num_colors : ℕ) : List Rgb :=
  if color_counts = [] then []
  else if color_counts.length ≤ num_colors then color_counts.map (·.rgb)
  else (median_cut_loop num_colors num_colors [color_counts]).map box_average

/-! ### Palette compaction (batch `convert_image_to_pattern` lines
702-713, devops `_prune_unused_palette`) -/

/-- Sorted list of distinct non-sentinel target values:
`sorted(list(set(t for t in targets if t != NO_STITCH)))` in
`batch_converter.py`, `np.unique(targets[targets != NO_STITCH])` in
`image_to_pattern.py`. -/

def used_values (targets : List ℕ) : List ℕ :=
  stableSort (fun a b => a ≤ b) (targets.filter (fun t => t ≠ NO_STITCH)).dedup

/-- `[palette[i] for i in used_indices]`; `none` embeds the Python
`IndexError` on an out-of-range index. -/

def select_entries (palette : List α) : List ℕ → Option (List α)
  | [] => some []
  | i :: rest =>
      match palette[i]?, select_entries palette rest with
      | some x, some xs => some (x :: xs)
      | _, _ => none

/-- The compaction step shared by the two pipelines: collect the sorted
distinct non-sentinel values, fail when there are none (`return None` /
`raise RuntimeError("No stitches found...")`), select the referenced
palette entries and renumber every non-sentinel target to the rank of
its old value. -/

def prune_unused (palette : List α) (targets : List ℕ) :
    Option (List α × List ℕ) :=
  let used := used_values targets
  if used = [] then none
  else
    match select_entries palette used with
    | none => none
    | some newPalette =>
        some (newPalette,
          targets.map (fun t => if t = NO_STITCH then t else used.indexOf t))

/-! ### The batch conversion pipeline (`convert_image_to_pattern` of
`batch_converter.py`) -/

/-- An RGBA pixel of the decoded image buffer. -/

structure Rgba where
  r : ℕ
  g : ℕ
  b : ℕ
  a : ℕ
deriving DecidableEq, Repr

/-- One step of the `color_map[(r, g, b)] += 1` counting dict;
insertion order of first occurrences is preserved, as for a Python
dict. -/

def bump_color : List ColorCount → Rgb → List ColorCount
  | [], c => [ColorCount.mk c 1]
  | x :: xs, c =>
      if x.rgb = c then ColorCount.mk x.rgb (x.count + 1) :: xs
      else x :: bump_color xs c

/-- The sampling loop of `convert_image_to_pattern`: skip pixels with
`a < 128`, count the rest per distinct RGB. -/

def collect_color_counts (pixels : List Rgba) : List ColorCount :=
  pixels.foldl
    (fun acc p => if p.a < 128 then acc else bump_color acc (Rgb.mk p.r p.g p.b)) []

/-- A palette entry of the batch pipeline.  DMC entries carry their
catalog `code`; the synthetic (`--no-dmc`) entries carry none.  The
stored `hex` string is kept as its decoded `rgb`; the display `name`
affects nothing. -/

structure BatchPaletteEntry where
  code : Option String
  rgb : Rgb
deriving DecidableEq, Repr

/-- The conversion result (`width`/`height`/`meta` are pass-through
bookkeeping and are omitted; `targets` is the row-major grid). -/

structure PatternDocument where
  palette : List BatchPaletteEntry
  targets : List ℕ
deriving DecidableEq, Repr

/-- The only internal failure of the batch pipeline: `used_indices`
empty, `print("No stitches found...")`, `return None`. -/

inductive BatchFailure where
  | noStitchesAfterAssignment
deriving DecidableEq, Repr

/-- The per-opaque-pixel target of `convert_image_to_pattern`: the
nearest quantized color, then (DMC mode only) the palette entry nearest
to that quantized color.  The `getD` default is unreachable: the branch
runs only when at least one opaque pixel produced a sample, so
`quantized` is nonempty and the scan index is in range. -/

def assign_target (use_dmc : Bool) (quantized palette_rgb : List Rgb) (c : Rgb) : ℕ :=
  let qi := find_closest_palette_index c quantized
  if use_dmc then
    find_closest_palette_index (quantized.getD qi (Rgb.mk 0 0 0)) palette_rgb
  else qi

/-- Embedding of the core of `convert_image_to_pattern` of
`batch_converter.py`, from the decoded RGBA buffer (decode, EXIF and
resize are external collaborators). -/

def convert_image_to_pattern (pixels : List Rgba) (use_dmc_colors : Bool)
    (max_colors : ℕ) : Except BatchFailure PatternDocument :=
  let color_counts := collect_color_counts pixels
  let quantized := median_cut color_counts max_colors
  let palette : List BatchPaletteEntry :=
    if use_dmc_colors then
      (map_to_dmc quantized).map (fun m => BatchPaletteEntry.mk (some m.1.code) m.1.rgb)
    else quantized.map (fun c => BatchPaletteEntry.mk none c)
  let palette_rgb := palette.map (·.rgb)
  let targets := pixels.map (fun p =>
    if p.a < 128 then NO_STITCH
    else assign_target use_dmc_colors quantized palette_rgb (Rgb.mk p.r p.g p.b))
  match prune_unused palette targets with
  | none => Except.error BatchFailure.noStitchesAfterAssignment
  | some (newPalette, newTargets) => Except.ok (PatternDocument.mk newPalette newTargets)

/-! ### Symbol allocation (`_assign_unique_symbols` of
`image_to_pattern.py`) -/

/-- The Unicode whitespace set stripped by Python's `str.strip()`. -/

def isPyWhitespace (c : Char) : Bool :=
  c.toNat ∈ [0x09, 0x0A, 0x0B, 0x0C, 0x0D, 0x1C, 0x1D, 0x1E, 0x1F, 0x20,
    0x85, 0xA0, 0x1680, 0x2000, 0x2001, 0x2002, 0x2003, 0x2004, 0x2005,
    0x2006, 0x2007, 0x2008, 0x2009, 0x200A, 0x2028, 0x2029, 0x202F,
    0x205F, 0x3000]

/-- Python's `str.strip()` on a string viewed as a character list. -/

def pyStrip (s : List Char) : List Char :=
  ((s.dropWhile isPyWhitespace).reverse.dropWhile isPyWhitespace).reverse

/-- The `good(sym)` predicate local to `_assign_unique_symbols`:
exactly one BMP, non-surrogate, non-braille, non-whitespace code point
whose `unicodedata.category` is not combining/format/control.  The
category table of the external `unicodedata` module is the parameter
`cat`. -/

def good_symbol (cat : Char → String) (s : List Char) : Bool :=
  match s with
  | [c] =>
      if 0xFFFF < c.toNat then false
      else if 0xD800 ≤ c.toNat ∧ c.toNat ≤ 0xDFFF then false
      else if 0x2800 ≤ c.toNat ∧ c.toNat ≤ 0x28FF then false
      else if pyStrip [c] = [] then false
      else if cat c ∈ ["Mn", "Me", "Cf", "Cc", "Cs"] then false
      else true
  | _ => false

/-- A palette entry as seen by the symbol allocator: some payload (the
other dict fields) plus the mutable `symbol` field. -/

structure PalItem (α : Type) where
  payload : α
  symbol : List Char
deriving DecidableEq, Repr

/-- The `while True: cand = next(pool_iter); if cand not in used` loop:
advance through the pool to the first candidate not yet used, returning
it together with the remaining pool; `none` embeds `StopIteration`. -/

def draw_unused : List (List Char) → List (List Char) → Option (List Char × List (List Char))
  | [], _ => none
  | c :: rest, used =>
      if c ∈ used then draw_unused rest used else some (c, rest)

/-- The main loop of `_assign_unique_symbols`: for each entry, strip
the current symbol; keep it when it is good and unused, otherwise
replace it by the next unused pool candidate; record the resulting
symbol in `used`. -/

def assign_symbols_go (cat : Char → String) :
    List (List Char) → List (List Char) → List (PalItem α) → Option (List (PalItem α))
  | _, _, [] => some []
  | pool, used, p :: rest =>
      let sym := pyStrip p.symbol
      if good_symbol cat sym ∧ sym ∉ used then
        (assign_symbols_go cat pool (sym :: used) rest).map (fun out => p :: out)
      else
        match draw_unused pool used with
        | none => none
        | some (cand, pool2) =>
            (assign_symbols_go cat pool2 (cand :: used) rest).map
              (fun out => PalItem.mk p.payload cand :: out)

/-- Embedding of `_assign_unique_symbols` of `image_to_pattern.py`
(the in-place mutation is returned as a new list).  `pool` is the list
produced by `get_symbol_pool(max(800, len(palette) + 50))`. -/

def _assign_unique_symbols (cat : Char → String) (pool : List (List Char))
    (palette : List (PalItem α)) : Option (List (PalItem α)) :=
  assign_symbols_go cat pool [] palette

/-! ### The devops quantiser (`_quantise_opaque_pixels` of
`image_to_pattern.py`) -/

/-- One quantised colour with its pixel count (`QuantisedColour`). -/

structure QuantisedColour where
  rgb : Rgb
  count : ℕ
deriving DecidableEq, Repr

/-- `(r << 16) | (g << 8) | b` for `u8` channels. -/

def pack_rgb (c : Rgb) : ℕ := c.r * 65536 + c.g * 256 + c.b

/-- `((val >> 16) & 0xFF, (val >> 8) & 0xFF, val & 0xFF)`. -/

def unpack_rgb (v : ℕ) : Rgb :=
  Rgb.mk (v / 65536 % 256) (v / 256 % 256) (v % 256)

/-- The slice `rgb_pixels[::stride]`. -/

def take_every (l : List α) (stride : ℕ) : List α :=
  (l.enum.filter (fun p => p.1 % stride = 0)).map (fun p => p.2)

/-- Embedding of `_maybe_sample_pixels`.  `max_samples` is a Python
`int`, hence `ℤ` (`<= 0` means "use all pixels"). -/

def _maybe_sample_pixels (l : List Rgb) (max_samples : ℤ) : List Rgb :=
  if max_samples ≤ 0 then l
  else if (l.length : ℤ) ≤ max_samples then l
  else take_every l (max 1 (l.length / max_samples.toNat))

/-- Embedding of `_quantise_method_id`; `none` is the `ValueError`.
Python's `strip().lower()` is `String.trim.toLower` for the ASCII
method names involved. -/

def _quantise_method_id (method : String) : Option ℕ :=
  let s := method.trim.toLower
  if s = "median-cut" ∨ s = "median" ∨ s = "mediancut" then some 0
  else if s = "octree" ∨ s = "fastoctree" ∨ s = "fast-octree" then some 2
  else none

/-- What the embedded code reads off a PIL `Image.quantize` result:
`getpalette()` (a flat list of channel values) and `getcolors()`
(`(count, palette index)` pairs). -/

structure PilResult where
  palette : List ℕ
  colours : List (ℕ × ℕ)

/-- The external PIL quantisation primitive: flat padded pixel list,
method id and colour count in, palette and colour counts out. -/

def PilQuantizer : Type := List Rgb → ℕ → ℕ → PilResult

/-- The collection loop over `q.getcolors()`: skip out-of-range palette
bases (`base + 2 >= len(pal)`) and already-seen RGB triples, keep the
rest in order. -/

def pil_collect (pal : List ℕ) : List (ℕ × ℕ) → List Rgb → List QuantisedColour
  | [], _ => []
  | ci :: rest, seen =>
      if pal.length ≤ ci.2 * 3 + 2 then pil_collect pal rest seen
      else
        let rgb := Rgb.mk (pal.getD (ci.2 * 3) 0) (pal.getD (ci.2 * 3 + 1) 0)
          (pal.getD (ci.2 * 3 + 2) 0)
        if rgb ∈ seen then pil_collect pal rest seen
        else QuantisedColour.mk rgb ci.1 :: pil_collect pal rest (rgb :: seen)

/-- Embedding of `_quantise_opaque_pixels` of `image_to_pattern.py`.
The first branch (distinct packed colors fit into `max_colors` and at
most 250000 working pixels) is fully embedded; the large-image branch
delegates to the external `pil` primitive exactly as the source
delegates to `Image.quantize`.  `none` embeds the `ValueError` of an
unknown quantise method. -/

def _quantise_opaque_pixels (pil : PilQuantizer) (opaque_rgb : List Rgb)
    (max_colors : ℕ) (method : String) (palette_sample_max : ℤ) :
    Option (List QuantisedColour) :=
  if opaque_rgb = [] then some []
  else
    let work := _maybe_sample_pixels opaque_rgb palette_sample_max
    let n := work.length
    let packed := work.map pack_rgb
    let uniq := stableSort (fun a b => a ≤ b) packed.dedup
    if n ≤ 250000 ∧ uniq.length ≤ max_colors then
      some ((stableSort (fun a b => b.2 ≤ a.2)
          (uniq.map (fun v => (v, packed.count v)))).map
        (fun p => QuantisedColour.mk (unpack_rgb p.1) p.2))
    else
      match _quantise_method_id method with
      | none => none
      | some mid =>
          let tile_w := min 2048 (max 1 (Nat.sqrt n))
          let tile_h := (n + tile_w - 1) / tile_w
          let pad_n := tile_w * tile_h - n
          let flat := work ++ List.replicate pad_n (work.headD (Rgb.mk 0 0 0))
          let quantize_colors := min max_colors 256
          let res := pil flat mid quantize_colors
          let colours := stableSort (fun a b => b.1 ≤ a.1) res.colours
          some (pil_collect res.palette colours [])

/-! ### The devops catalog mapper (`_map_quantised_to_dmc`) -/

/-- The distance vector of `_map_quantised_to_dmc` after
`dist_sq[used] = np.inf`: `none` is `np.inf` for an already-used
catalog index. -/

def dmc_inf_values (used : List ℕ) (c : Rgb) : List (Option ℤ) :=
  DMC_COLORS_RGB.enum.map (fun e =>
    if e.1 ∈ used then none else some (color_distance_sq512 c e.2.rgb))

/-- `int(np.argmin(dist_sq))`: first index of the minimum, `0` when
every entry is `inf`. -/

def _map_quantised_to_dmc_argmin (used : List ℕ) (c : Rgb) : ℕ :=
  firstArgmin (dmc_inf_values used c)

/-- The assignment loop over the count-ordered colours, threading the
`used` boolean vector (as the list of used indices).  The `getD`
default is unreachable: the argmin of the 454-entry catalog is always
in range. -/

def _map_quantised_to_dmc_go : List QuantisedColour → List ℕ → List (DmcColor × Rgb)
  | [], _ => []
  | qc :: rest, used =>
      let i := _map_quantised_to_dmc_argmin used qc.rgb
      let e := (DMC_COLORS_RGB[i]?).getD (DmcColor.mk "" (Rgb.mk 0 0 0))
      (e, qc.rgb) :: _map_quantised_to_dmc_go rest (i :: used)

/-- Embedding of `_map_quantised_to_dmc` of `image_to_pattern.py`:
process colours most-frequent-first (stable descending sort on
`count`), then restore the caller's order through the `by_rgb`
dictionary — which keeps, for each RGB value, the **last** result with
that value. -/

def _map_quantised_to_dmc (qcols : List QuantisedColour) : List (DmcColor × Rgb) :=
  let ordered := stableSort (fun a b => b.count ≤ a.count) qcols
  let results := _map_quantised_to_dmc_go ordered []
  qcols.map (fun qc =>
    ((results.filter (fun r => r.2 = qc.rgb)).getLast?).getD
      (DmcColor.mk "" (Rgb.mk 0 0 0), qc.rgb))

/-! ### The devops compaction and build (`_prune_unused_palette`,
`_build_palette_and_targets`) -/

/-- Embedding of `_prune_unused_palette` of `image_to_pattern.py`:
the same collect/renumber computation as the batch pipeline (via
`np.unique` and a rank table), followed by `_assign_unique_symbols` on
the surviving entries.  `none` embeds its `RuntimeError` (no stitches)
and a symbol-pool `StopIteration`. -/

def _prune_unused_palette (cat : Char → String) (pool : List (List Char))
    (palette : List (PalItem α)) (targets : List ℕ) :
    Option (List (PalItem α) × List ℕ) :=
  let used := used_values targets
  if used = [] then none
  else
    match select_entries palette used with
    | none => none
    | some outPalette =>
        match _assign_unique_symbols cat pool outPalette with
        | none => none
        | some outPalette2 =>
            some (outPalette2,
              targets.map (fun t => if t = NO_STITCH then t else used.indexOf t))

/-- The failure modes of `_build_palette_and_targets` and its callees,
by raise site. -/

inductive DevopsFailure where
  | noOpaquePixels
  | badQuantiseMethod
  | tooManyCustomColors
  | symbolPoolExhausted
deriving DecidableEq, Repr

/-- Embedding of `_build_palette_and_targets` of
`image_to_pattern.py`.  External collaborators are parameters: `pil`
(the `Image.quantize` palette primitive), `assigner` (the palette-index
assignment PIL performs for each pixel, `img_rgb.quantize(palette=...)`),
`cat` (`unicodedata.category`), `pool` (the symbol pool of
`dmc_colors.get_symbol_pool`) and `dmcSym` (the catalog symbol column
parsed from `dmcColors.ts`, which lives outside `src/`).  Palette
entries carry `(catalog code?, rgb)` as payload plus the symbol.  The
dead `max_colors = len(DMC_COLORS)` clamp of the source (the variable
is never read afterwards) is not represented. -/

def _build_palette_and_targets (pil : PilQuantizer)
    (assigner : List Rgb → Rgb → ℕ) (cat : Char → String)
    (pool : List (List Char)) (dmcSym : String → List Char)
    (pixels : List Rgba) (max_colors : ℕ) (use_dmc : Bool) (method : String)
    (alpha_threshold : ℕ) (palette_sample_max : ℤ) :
    Except DevopsFailure (List (PalItem (Option String × Rgb)) × List ℕ) :=
  if pixels.all (fun p => p.a < alpha_threshold) then
    Except.error DevopsFailure.noOpaquePixels
  else
    let opaque_rgb := (pixels.filter (fun p => alpha_threshold ≤ p.a)).map
      (fun p => Rgb.mk p.r p.g p.b)
    match _quantise_opaque_pixels pil opaque_rgb max_colors method palette_sample_max with
    | none => Except.error DevopsFailure.badQuantiseMethod
    | some qcols =>
        let paletteBase : Except DevopsFailure (List (PalItem (Option String × Rgb))) :=
          if use_dmc then
            Except.ok ((_map_quantised_to_dmc qcols).map
              (fun m => PalItem.mk (some m.1.code, m.1.rgb) (dmcSym m.1.code)))
          else if 490 < max_colors then Except.error DevopsFailure.tooManyCustomColors
          else Except.ok (qcols.map (fun qc => PalItem.mk (none, qc.rgb) []))
        match paletteBase with
        | Except.error e => Except.error e
        | Except.ok palette0 =>
            match _assign_unique_symbols cat pool palette0 with
            | none => Except.error DevopsFailure.symbolPoolExhausted
            | some palette =>
                let palette_rgb := palette0.map (fun p => p.payload.2)
                let targets := pixels.map (fun p =>
                  if p.a < alpha_threshold then NO_STITCH
                  else assigner palette_rgb (Rgb.mk p.r p.g p.b))
                Except.ok (palette, targets)

/-! ### Symbols of the batch serializer (`SYMBOLS[i % len(SYMBOLS)]`) -/

/-- The `SYMBOLS` string of `batch_converter.py`. -/

def SYMBOLS : List Char :=
  "0123456789ABCDEFGHIJKLMNOPQRSTUVWXYZabcdefghijklmnopqrstuvwxyz@#$%&*+-=~^<>!?/|".toList

/-- The symbol `create_oxs_file` writes for palette entry `i`:
`SYMBOLS[i % len(SYMBOLS)]`. -/

def oxs_symbol (i : ℕ) : Char := SYMBOLS.getD (i % SYMBOLS.length) ' '

/-! ### Claim C4 — median-cut split-channel tie-break -/

/-- The per-channel range of a box (`r_range`/`g_range`/`b_range` in
`median_cut`). -/

def box_channel_range (box : List ColorCount) : ℕ → ℕ
  | 0 => box_r_max box - box_r_min box
  | 1 => box_g_max box - box_g_min box
  | _ => box_b_max box - box_b_min box

/-- Modelled from the spec claim: the channel choice the claim
describes — tie-break order red, then green, then blue, a channel
losing a tie only to a strictly greater later channel (so red wins a
red/green range tie). -/

def claimed_split_channel (r_range g_range b_range : ℕ) : ℕ :=
  if g_range ≤ r_range ∧ b_range ≤ r_range then 0
  else if b_range ≤ g_range then 1
  else 2

/-! ### Claim C3 — pixel assignment -/

/-- The five-pixel fully opaque image of the C3 counterexample. -/

def c3_pixels : List Rgba :=
  [Rgba.mk 135 245 82 255, Rgba.mk 11 105 185 255, Rgba.mk 75 13 152 255,
    Rgba.mk 46 133 187 255, Rgba.mk 85 182 114 255]

theorem insertStable_perm (le : α → α → Bool) (x : α) (l : List α) :
    (insertStable le x l).Perm (x :: l) := by
  induction l with
  | nil => exact List.Perm.refl _
  | cons y ys ih =>
      simp only [insertStable]
      split
      · exact ((ih.cons y).trans (List.Perm.swap x y ys))
      · exact List.Perm.refl _

theorem insertAllStable_perm (le : α → α → Bool) (acc l : List α) :
    (insertAllStable le acc l).Perm (acc ++ l) := by
  induction l generalizing acc with
  | nil => simp [insertAllStable]
  | cons x xs ih =>
      simp only [insertAllStable]
      refine (ih (insertStable le x acc)).trans ?_
      have h1 : (insertStable le x acc ++ xs).Perm ((x :: acc) ++ xs) :=
        (insertStable_perm le x acc).append_right xs
      refine h1.trans ?_
      simpa using (List.perm_middle.symm : (x :: (acc ++ xs)).Perm (acc ++ x :: xs))

theorem stableSort_perm (le : α → α → Bool) (l : List α) :
    (stableSort le l).Perm l := by
  simpa [stableSort] using insertAllStable_perm le [] l

theorem stableSort_length (le : α → α → Bool) (l : List α) :
    (stableSort le l).length = l.length :=
  (stableSort_perm le l).length_eq

theorem mem_stableSort (le : α → α → Bool) (l : List α) (a : α) :
    a ∈ stableSort le l ↔ a ∈ l :=
  (stableSort_perm le l).mem_iff

theorem stableSort_nodup (le : α → α → Bool) (l : List α) (h : l.Nodup) :
    (stableSort le l).Nodup :=
  (stableSort_perm le l).symm.nodup h

theorem optLtInf_irrefl (a : Option ℤ) : optLtInf a a = false := by
  cases a <;> simp [optLtInf]

theorem optLtInf_asymm {a b : Option ℤ} (h : optLtInf a b = true) :
    optLtInf b a = false := by
  cases a <;> cases b <;> simp_all [optLtInf] <;> omega

theorem optLtInf_trans {a b c : Option ℤ} (hab : optLtInf a b = true)
    (hbc : optLtInf b c = true) : optLtInf a c = true := by
  cases a <;> cases b <;> cases c <;> simp_all [optLtInf] <;> omega

/-- If `x` does not beat `b` and `w` does beat `b`, then `x` does not
beat `w` (totality of the underlying order). -/

theorem optLtInf_shrink {x b w : Option ℤ} (hx : optLtInf x b = false)
    (hw : optLtInf w b = true) : optLtInf x w = false := by
  cases x <;> cases b <;> cases w <;> simp_all [optLtInf] <;> omega

theorem firstArgminGo_bound (rest : List (Option ℤ)) (i bi : ℕ) (bv : Option ℤ)
    (hbi : bi < i) : firstArgminGo rest i bi bv < i + rest.length := by
  induction rest generalizing i bi bv with
  | nil => simpa [firstArgminGo] using Nat.lt_of_lt_of_le hbi (Nat.le_refl i)
  | cons v vs ih =>
      simp only [firstArgminGo, List.length_cons]
      by_cases hv : optLtInf v bv = true
      · simp only [hv, if_true]
        have := ih (i + 1) i v (Nat.lt_succ_self i)
        omega
      · have hv2 : optLtInf v bv = false := by simpa using hv
        rw [hv2]
        simp only [Bool.false_eq_true, if_false]
        have := ih (i + 1) bi bv (Nat.lt_succ_of_lt hbi)
        omega

/-- The scan keeps a value `w` that is the current best value, does not
beat-lose to any element of the remaining list, and is at least as good
as the incoming best. -/

theorem firstArgminGo_min (rest : List (Option ℤ)) (i bi : ℕ) (bv : Option ℤ) :
    ∃ w : Option ℤ,
      ((firstArgminGo rest i bi bv = bi ∧ w = bv) ∨
        (∃ k, ∃ hk : k < rest.length,
          firstArgminGo rest i bi bv = i + k ∧ w = rest.get ⟨k, hk⟩)) ∧
      (w = bv ∨ optLtInf w bv = true) ∧
      (∀ x ∈ rest, optLtInf x w = false) := by
  induction rest generalizing i bi bv with
  | nil => exact ⟨bv, Or.inl ⟨rfl, rfl⟩, Or.inl rfl, by simp⟩
  | cons v vs ih =>
      simp only [firstArgminGo]
      by_cases hv : optLtInf v bv = true
      · simp only [hv, if_true]
        obtain ⟨w, hpos, hle, hmin⟩ := ih (i + 1) i v
        refine ⟨w, ?_, ?_, ?_⟩
        · rcases hpos with ⟨h1, h2⟩ | ⟨k, hk, h1, h2⟩
          · exact Or.inr ⟨0, by simp, by simpa using h1, by simpa using h2⟩
          · refine Or.inr ⟨k + 1, by simpa using Nat.succ_lt_succ hk, ?_, ?_⟩
            · omega
            · simpa using h2
        · rcases hle with h | h
          · exact Or.inr (h ▸ hv)
          · exact Or.inr (optLtInf_trans h hv)
        · intro x hx
          rcases List.mem_cons.mp hx with h | h
          · subst h
            rcases hle with h | h
            · exact h ▸ optLtInf_irrefl _
            · exact optLtInf_asymm h
          · exact hmin x h
      · replace hv : optLtInf v bv = false := by
          simpa using hv
        rw [hv]
        simp only [Bool.false_eq_true, if_false]
        obtain ⟨w, hpos, hle, hmin⟩ := ih (i + 1) bi bv
        refine ⟨w, ?_, hle, ?_⟩
        · rcases hpos with ⟨h1, h2⟩ | ⟨k, hk, h1, h2⟩
          · exact Or.inl ⟨h1, h2⟩
          · refine Or.inr ⟨k + 1, by simpa using Nat.succ_lt_succ hk, ?_, ?_⟩
            · omega
            · simpa using h2
        · intro x hx
          rcases List.mem_cons.mp hx with h | h
          · subst h
            rcases hle with h | h
            · exact h ▸ hv
            · exact optLtInf_shrink hv h
          · exact hmin x h

/-- Specification of the first-minimum scan: on a nonempty list the
returned index is in range, and no element of the list strictly beats
the value stored there. -/

theorem firstArgmin_spec (vals : List (Option ℤ)) (hne : vals ≠ []) :
    ∃ hj : firstArgmin vals < vals.length,
      ∀ x ∈ vals, optLtInf x (vals.get ⟨firstArgmin vals, hj⟩) = false := by
  cases vals with
  | nil => exact absurd rfl hne
  | cons v vs =>
      obtain ⟨w, hpos, hle, hmin⟩ := firstArgminGo_min vs 1 0 v
      have hw_get : ∃ hj : firstArgmin (v :: vs) < (v :: vs).length,
          (v :: vs).get ⟨firstArgmin (v :: vs), hj⟩ = w := by
        rcases hpos with ⟨h1, h2⟩ | ⟨k, hk, h1, h2⟩
        · refine ⟨by simp [firstArgmin, h1], ?_⟩
          simp [firstArgmin, h1, h2]
        · refine ⟨?_, ?_⟩
          · simp only [firstArgmin, h1, List.length_cons]
            omega
          · have : firstArgmin (v :: vs) = k + 1 := by
              simp only [firstArgmin, h1]; omega
            simp only [this, List.get_cons_succ]
            exact h2.symm
      obtain ⟨hj, hget⟩ := hw_get
      refine ⟨hj, ?_⟩
      intro x hx
      rw [hget]
      rcases List.mem_cons.mp hx with h | h
      · subst h
        rcases hle with h | h
        · exact h ▸ optLtInf_irrefl _
        · exact optLtInf_asymm h
      · exact hmin x h

theorem DMC_COLORS_RGB_ne_nil : DMC_COLORS_RGB ≠ [] := by
  unfold DMC_COLORS_RGB
  exact List.cons_ne_nil _ _

theorem find_closest_palette_index_spec (rgb : Rgb) (palette : List Rgb)
    (hne : palette ≠ []) :
    ∃ hlt : find_closest_palette_index rgb palette < palette.length,
      ∀ p ∈ palette,
        color_distance_sq512 rgb (palette.get ⟨find_closest_palette_index rgb palette, hlt⟩)
          ≤ color_distance_sq512 rgb p := by
  have hmapne : palette.map (fun p => some (color_distance_sq512 rgb p)) ≠ [] := by
    simpa using hne
  obtain ⟨hj, hmin⟩ := firstArgmin_spec _ hmapne
  have hlt : find_closest_palette_index rgb palette < palette.length := by
    simpa [find_closest_palette_index] using hj
  refine ⟨hlt, ?_⟩
  intro p hp
  have hx : some (color_distance_sq512 rgb p)
      ∈ palette.map (fun q => some (color_distance_sq512 rgb q)) :=
    List.mem_map_of_mem _ hp
  have := hmin _ hx
  rw [List.get_map] at this
  simp only [optLtInf, decide_eq_false_iff_not, not_lt] at this
  simpa [find_closest_palette_index] using this

/-- The scan of `map_to_dmc` picks an entry of the full catalog whose
penalised distance is minimal. -/

theorem map_to_dmc_choice_spec (used : List String) (c : Rgb) :
    ∃ e, DMC_COLORS_RGB[map_to_dmc_choice used c]? = some e ∧
      ∀ e2 ∈ DMC_COLORS_RGB,
        map_to_dmc_adjusted used c e ≤ map_to_dmc_adjusted used c e2 := by
  have hmapne : DMC_COLORS_RGB.map (fun e => some (map_to_dmc_adjusted used c e)) ≠ [] := by
    simpa using DMC_COLORS_RGB_ne_nil
  obtain ⟨hj, hmin⟩ := firstArgmin_spec _ hmapne
  have hlt : map_to_dmc_choice used c < DMC_COLORS_RGB.length := by
    simpa [map_to_dmc_choice] using hj
  refine ⟨DMC_COLORS_RGB.get ⟨map_to_dmc_choice used c, hlt⟩, ?_, ?_⟩
  · exact List.getElem?_eq_getElem hlt
  · intro e2 he2
    have hx : some (map_to_dmc_adjusted used c e2)
        ∈ DMC_COLORS_RGB.map (fun e => some (map_to_dmc_adjusted used c e)) :=
      List.mem_map_of_mem _ he2
    have := hmin _ hx
    rw [List.get_map] at this
    simp only [optLtInf, decide_eq_false_iff_not, not_lt] at this
    simpa [map_to_dmc_choice] using this

set_option maxRecDepth 4000 in

/-- `map_to_dmc` assigns exactly one catalog entry to every input
color (the catalog is nonempty, so the `if closest_dmc:` guard of the
source always passes). -/

theorem map_to_dmc_go_length (qs : List Rgb) (used : List String) :
    (map_to_dmc_go qs used).length = qs.length := by
  induction qs generalizing used with
  | nil => rfl
  | cons c rest ih =>
      obtain ⟨e, he, _⟩ := map_to_dmc_choice_spec used c
      simp only [map_to_dmc_go]
      rw [he]
      simp only [List.length_cons, ih]

theorem select_box_go_bound (rest : List (List ColorCount)) (i : ℕ) (bi : Option ℕ)
    (bv : ℕ) (hbi : ∀ j, bi = some j → j < i) :
    ∀ m, select_box_go rest i bi bv = some m → m < i + rest.length := by
  induction rest generalizing i bi bv with
  | nil =>
      intro m hm
      simpa using Nat.lt_of_lt_of_le (hbi m hm) (Nat.le_refl i)
  | cons b rest ih =>
      intro m hm
      simp only [select_box_go] at hm
      by_cases hc : bv < box_volume b ∧ 1 < b.length
      · rw [if_pos hc] at hm
        have := ih (i + 1) (some i) (box_volume b)
          (by intro j hj; cases hj; exact Nat.lt_succ_self i) m hm
        simp only [List.length_cons]
        omega
      · rw [if_neg hc] at hm
        have := ih (i + 1) bi bv
          (by intro j hj; exact Nat.lt_succ_of_lt (hbi j hj)) m hm
        simp only [List.length_cons]
        omega

theorem select_box_bound (boxes : List (List ColorCount)) (i : ℕ)
    (h : select_box boxes = some i) : i < boxes.length := by
  have := select_box_go_bound boxes 0 none 0 (by intro j hj; cases hj) i h
  simpa using this

theorem split_halves_length_le (a b : List ColorCount) :
    ((if a = [] then ([] : List (List ColorCount)) else [a])
      ++ (if b = [] then ([] : List (List ColorCount)) else [b])).length ≤ 2 := by
  by_cases h1 : a = [] <;> by_cases h2 : b = [] <;> simp [h1, h2]

theorem split_box_length_le (box : List ColorCount) : (split_box box).length ≤ 2 := by
  unfold split_box
  exact split_halves_length_le _ _

theorem median_cut_step_length (boxes boxes2 : List (List ColorCount))
    (h : median_cut_step boxes = some boxes2) :
    boxes2.length ≤ boxes.length + 1 := by
  simp only [median_cut_step] at h
  split at h
  · exact absurd h (by simp)
  · rename_i i hsel
    split at h
    · exact absurd h (by simp)
    · rename_i box hget
      have hi : i < boxes.length := select_box_bound boxes i hsel
      have hb2 : boxes2 = boxes.eraseIdx i ++ split_box box := by
        simpa using h.symm
      subst hb2
      have h1 : (boxes.eraseIdx i).length = boxes.length - 1 := by
        simp [List.length_eraseIdx, hi]
      have h2 := split_box_length_le box
      simp only [List.length_append, h1]
      omega

theorem median_cut_loop_length (num_colors : ℕ) (fuel : ℕ)
    (boxes : List (List ColorCount)) (h : boxes.length ≤ num_colors) :
    (median_cut_loop num_colors fuel boxes).length ≤ num_colors := by
  induction fuel generalizing boxes with
  | zero => simpa [median_cut_loop] using h
  | succ fuel ih =>
      simp only [median_cut_loop]
      by_cases hlt : boxes.length < num_colors
      · rw [if_pos hlt]
        rcases hstep : median_cut_step boxes with _ | boxes2
        · exact h
        · exact ih boxes2 (by
            have := median_cut_step_length boxes boxes2 hstep
            omega)
      · rw [if_neg hlt]
        exact h

theorem mem_used_values (targets : List ℕ) (v : ℕ) :
    v ∈ used_values targets ↔ v ∈ targets ∧ v ≠ NO_STITCH := by
  simp [used_values, mem_stableSort, List.mem_dedup, List.mem_filter]

theorem used_values_nodup (targets : List ℕ) : (used_values targets).Nodup :=
  stableSort_nodup _ _ (List.nodup_dedup _)

theorem select_entries_getElem (palette : List α) (l : List ℕ) (out : List α)
    (h : select_entries palette l = some out) :
    out.length = l.length ∧
      ∀ k : ℕ, out[k]? = (l[k]?).bind (fun i => palette[i]?) := by
  induction l generalizing out with
  | nil =>
      simp only [select_entries, Option.some.injEq] at h
      subst h
      exact ⟨rfl, by intro k; simp⟩
  | cons i rest ih =>
      simp only [select_entries] at h
      rcases hp : palette[i]? with _ | x
      · rw [hp] at h; exact absurd h (by simp)
      · rw [hp] at h
        rcases hr : select_entries palette rest with _ | xs
        · rw [hr] at h; exact absurd h (by simp)
        · rw [hr] at h
          have hout : out = x :: xs := by simpa using h.symm
          subst hout
          obtain ⟨hlen, hget⟩ := ih xs hr
          refine ⟨by simp [hlen], ?_⟩
          intro k
          cases k with
          | zero => simpa using hp.symm
          | succ k => simpa using hget k

theorem select_entries_isSome (palette : List α) (l : List ℕ)
    (h : ∀ i ∈ l, i < palette.length) :
    ∃ out, select_entries palette l = some out := by
  induction l with
  | nil => exact ⟨[], rfl⟩
  | cons i rest ih =>
      obtain ⟨xs, hxs⟩ := ih (fun j hj => h j (List.mem_cons_of_mem i hj))
      have hi : i < palette.length := h i (List.mem_cons_self i rest)
      refine ⟨palette.get ⟨i, hi⟩ :: xs, ?_⟩
      simp [select_entries, List.getElem?_eq_getElem hi, hxs]

theorem select_entries_some_bound (palette : List α) (l : List ℕ) (out : List α)
    (h : select_entries palette l = some out) :
    ∀ i ∈ l, i < palette.length := by
  induction l generalizing out with
  | nil => simp
  | cons i rest ih =>
      simp only [select_entries] at h
      rcases hp : palette[i]? with _ | x
      · rw [hp] at h; exact absurd h (by simp)
      · rw [hp] at h
        rcases hr : select_entries palette rest with _ | xs
        · rw [hr] at h; exact absurd h (by simp)
        · intro j hj
          rcases List.mem_cons.mp hj with rfl | hj2
          · exact (List.getElem?_eq_some.mp hp).1
          · exact ih xs hr j hj2

/-- A duplicate-free list of naturals all below `N` has at most `N`
elements. -/

theorem nodup_lt_length_le (l : List ℕ) (N : ℕ) (hnd : l.Nodup)
    (hlt : ∀ x ∈ l, x < N) : l.length ≤ N := by
  classical
  have hcard : l.toFinset.card = l.length := List.toFinset_card_of_nodup hnd
  have hsub : l.toFinset ⊆ Finset.range N := by
    intro x hx
    exact Finset.mem_range.mpr (hlt x (List.mem_toFinset.mp hx))
  have := Finset.card_le_card hsub
  rw [hcard, Finset.card_range] at this
  exact this

theorem used_values_nil_of_all_sentinel (targets : List ℕ)
    (h : ∀ t ∈ targets, t = NO_STITCH) : used_values targets = [] := by
  rw [List.eq_nil_iff_forall_not_mem]
  intro v hv
  obtain ⟨hmem, hne⟩ := (mem_used_values targets v).mp hv
  exact hne (h v hmem)

theorem prune_unused_none_of_all_sentinel (palette : List α) (targets : List ℕ)
    (h : ∀ t ∈ targets, t = NO_STITCH) : prune_unused palette targets = none := by
  simp [prune_unused, used_values_nil_of_all_sentinel targets h]

theorem prune_unused_isSome (palette : List α) (targets : List ℕ)
    (hval : ∀ t ∈ targets, t ≠ NO_STITCH → t < palette.length)
    (hne : ∃ t ∈ targets, t ≠ NO_STITCH) :
    ∃ newPal newT, prune_unused palette targets = some (newPal, newT) := by
  obtain ⟨t, htmem, htne⟩ := hne
  have hused_ne : used_values targets ≠ [] := by
    intro hnil
    have : t ∈ used_values targets := (mem_used_values targets t).mpr ⟨htmem, htne⟩
    rw [hnil] at this
    exact absurd this (List.not_mem_nil t)
  have hbound : ∀ i ∈ used_values targets, i < palette.length := by
    intro i hi
    obtain ⟨h1, h2⟩ := (mem_used_values targets i).mp hi
    exact hval i h1 h2
  obtain ⟨out, hout⟩ := select_entries_isSome palette _ hbound
  refine ⟨out, targets.map (fun t => if t = NO_STITCH then t
    else (used_values targets).indexOf t), ?_⟩
  simp [prune_unused, hused_ne, hout]

theorem prune_unused_spec (palette : List α) (targets : List ℕ)
    (newPal : List α) (newT : List ℕ)
    (h : prune_unused palette targets = some (newPal, newT)) :
    newPal.length = (used_values targets).length ∧
    newT.length = targets.length ∧
    (∀ m ∈ newT, m = NO_STITCH ∨ m < newPal.length) ∧
    (∀ m : ℕ, m < newPal.length → m ≠ NO_STITCH → m ∈ newT) ∧
    newPal.length ≤ palette.length := by
  simp only [prune_unused] at h
  by_cases hnil : used_values targets = []
  · rw [if_pos hnil] at h
    exact absurd h (by simp)
  · rw [if_neg hnil] at h
    rcases hsel : select_entries palette (used_values targets) with _ | out
    · rw [hsel] at h
      exact absurd h (by simp)
    · rw [hsel] at h
      simp only [Option.some.injEq, Prod.mk.injEq] at h
      obtain ⟨h1, h2⟩ := h
      subst h1
      subst h2
      obtain ⟨hlen, _⟩ := select_entries_getElem palette _ out hsel
      have hnd := used_values_nodup targets
      refine ⟨hlen, by simp, ?_, ?_, ?_⟩
      · intro m hm
        obtain ⟨t, htmem, htval⟩ := List.mem_map.mp hm
        by_cases ht : t = NO_STITCH
        · left
          rw [← htval, ht, if_pos rfl]
        · right
          rw [← htval, if_neg ht, hlen]
          exact List.indexOf_lt_length.mpr ((mem_used_values targets t).mpr ⟨htmem, ht⟩)
      · intro m hm hmne
        rw [hlen] at hm
        set v := (used_values targets).get ⟨m, hm⟩ with hv
        have hvmem : v ∈ used_values targets := List.get_mem _ _ hm
        obtain ⟨hvt, hvne⟩ := (mem_used_values targets v).mp hvmem
        refine List.mem_map.mpr ⟨v, hvt, ?_⟩
        rw [if_neg hvne]
        have := List.indexOf_getElem hnd m hm
        simpa [hlen] using this
      · rw [hlen]
        exact nodup_lt_length_le _ _ hnd
          (select_entries_some_bound palette _ out hsel)

theorem draw_unused_spec (pool used : List (List Char)) (cand : List Char)
    (pool2 : List (List Char)) (h : draw_unused pool used = some (cand, pool2)) :
    cand ∉ used ∧ cand ∈ pool ∧ pool2.Sublist pool := by
  induction pool with
  | nil => exact absurd h (by simp [draw_unused])
  | cons c rest ih =>
      simp only [draw_unused] at h
      by_cases hc : c ∈ used
      · rw [if_pos hc] at h
        obtain ⟨h1, h2, h3⟩ := ih h
        exact ⟨h1, List.mem_cons_of_mem c h2, h3.cons c⟩
      · rw [if_neg hc] at h
        simp only [Option.some.injEq, Prod.mk.injEq] at h
        obtain ⟨rfl, rfl⟩ := h
        exact ⟨hc, List.mem_cons_self c rest, List.sublist_cons_self c rest⟩

theorem assign_symbols_go_length (cat : Char → String)
    (pool used : List (List Char)) (ps : List (PalItem α)) (out : List (PalItem α))
    (h : assign_symbols_go cat pool used ps = some out) : out.length = ps.length := by
  induction ps generalizing pool used out with
  | nil =>
      simp only [assign_symbols_go, Option.some.injEq] at h
      subst h
      rfl
  | cons p rest ih =>
      simp only [assign_symbols_go] at h
      by_cases hc : good_symbol cat (pyStrip p.symbol) = true ∧ pyStrip p.symbol ∉ used
      · rw [if_pos hc] at h
        rcases hrec : assign_symbols_go cat pool (pyStrip p.symbol :: used) rest with _ | out2
        · rw [hrec] at h; exact absurd h (by simp)
        · rw [hrec] at h
          simp only [Option.map_some', Option.some.injEq] at h
          subst h
          simp [ih _ _ _ hrec]
      · rw [if_neg hc] at h
        split at h
        · exact absurd h (by simp)
        · rename_i cand pool2 hdraw
          rcases hrec : assign_symbols_go cat pool2 (cand :: used) rest with _ | out2
          · rw [hrec] at h; exact absurd h (by simp)
          · rw [hrec] at h
            simp only [Option.map_some', Option.some.injEq] at h
            subst h
            simp [ih _ _ _ hrec]

theorem assign_symbols_go_strips (cat : Char → String)
    (ps : List (PalItem α)) (pool used : List (List Char)) (out : List (PalItem α))
    (hpool : ∀ s ∈ pool, pyStrip s = s)
    (h : assign_symbols_go cat pool used ps = some out) :
    (out.map (fun p => pyStrip p.symbol)).Nodup ∧
      ∀ s ∈ out.map (fun p => pyStrip p.symbol), s ∉ used := by
  induction ps generalizing pool used out with
  | nil =>
      simp only [assign_symbols_go, Option.some.injEq] at h
      subst h
      simp
  | cons p rest ih =>
      simp only [assign_symbols_go] at h
      by_cases hc : good_symbol cat (pyStrip p.symbol) = true ∧ pyStrip p.symbol ∉ used
      · rw [if_pos hc] at h
        rcases hrec : assign_symbols_go cat pool (pyStrip p.symbol :: used) rest with _ | out2
        · rw [hrec] at h; exact absurd h (by simp)
        · rw [hrec] at h
          simp only [Option.map_some', Option.some.injEq] at h
          subst h
          obtain ⟨hnd2, hni2⟩ := ih pool (pyStrip p.symbol :: used) out2 hpool hrec
          constructor
          · refine List.nodup_cons.mpr ⟨?_, hnd2⟩
            intro hmem
            exact (hni2 _ hmem) (List.mem_cons_self _ _)
          · intro s hs
            rcases List.mem_cons.mp hs with rfl | hs2
            · exact hc.2
            · exact fun hsu => (hni2 s hs2) (List.mem_cons_of_mem _ hsu)
      · rw [if_neg hc] at h
        split at h
        · exact absurd h (by simp)
        · rename_i cand pool2 hdraw
          obtain ⟨hcu, hcp, hsub⟩ := draw_unused_spec pool used cand pool2 hdraw
          rcases hrec : assign_symbols_go cat pool2 (cand :: used) rest with _ | out2
          · rw [hrec] at h; exact absurd h (by simp)
          · rw [hrec] at h
            simp only [Option.map_some', Option.some.injEq] at h
            subst h
            have hpool2 : ∀ s ∈ pool2, pyStrip s = s := fun s hs => hpool s (hsub.subset hs)
            obtain ⟨hnd2, hni2⟩ := ih pool2 (cand :: used) out2 hpool2 hrec
            have hcstrip : pyStrip cand = cand := hpool cand hcp
            constructor
            · refine List.nodup_cons.mpr ⟨?_, hnd2⟩
              intro hmem
              have hmem2 : cand ∈ List.map (fun p => pyStrip p.symbol) out2 := by
                simpa [hcstrip] using hmem
              exact (hni2 _ hmem2) (List.mem_cons_self _ _)
            · intro s hs
              rcases List.mem_cons.mp hs with rfl | hs2
              · simpa [hcstrip] using hcu
              · exact fun hsu => (hni2 s hs2) (List.mem_cons_of_mem _ hsu)

theorem pyStrip_singleton (c : Char) :
    pyStrip [c] = if isPyWhitespace c then [] else [c] := by
  by_cases h : isPyWhitespace c <;> simp [pyStrip, List.dropWhile, h]

theorem good_symbol_not_ws (cat : Char → String) (c : Char)
    (h : good_symbol cat [c] = true) : isPyWhitespace c = false := by
  by_cases hw : isPyWhitespace c
  · exfalso
    have hstrip : pyStrip [c] = [] := by simp [pyStrip_singleton, hw]
    simp [good_symbol, hstrip] at h
  · simpa using hw

theorem good_symbol_strip_self (cat : Char → String) (s : List Char)
    (h : good_symbol cat s = true) : pyStrip s = s := by
  match s with
  | [] => simp [good_symbol] at h
  | [c] =>
      rw [pyStrip_singleton, if_neg]
      simp [good_symbol_not_ws cat c h]
  | a :: b :: t => simp [good_symbol] at h

theorem assign_symbols_go_id (cat : Char → String) (pool : List (List Char))
    (ps : List (PalItem α)) (used : List (List Char))
    (hgood : ∀ p ∈ ps, good_symbol cat p.symbol = true)
    (hnd : (ps.map (fun p => p.symbol)).Nodup)
    (hused : ∀ p ∈ ps, p.symbol ∉ used) :
    assign_symbols_go cat pool used ps = some ps := by
  induction ps generalizing used with
  | nil => rfl
  | cons p rest ih =>
      have hg := hgood p (List.mem_cons_self p rest)
      have hstrip : pyStrip p.symbol = p.symbol := good_symbol_strip_self cat _ hg
      have h2 : (∀ x ∈ rest, ¬x.symbol = p.symbol) ∧
          (rest.map (fun q => q.symbol)).Nodup := by
        simpa using hnd
      simp only [assign_symbols_go, hstrip]
      rw [if_pos ⟨hg, hused p (List.mem_cons_self p rest)⟩]
      have hrec := ih (p.symbol :: used)
        (fun q hq => hgood q (List.mem_cons_of_mem p hq))
        h2.2
        (by
          intro q hq
          intro hmem
          rcases List.mem_cons.mp hmem with heq | hin
          · exact h2.1 q hq heq
          · exact hused q (List.mem_cons_of_mem p hq) hin)
      rw [hrec]
      rfl

theorem SYMBOLS_length : SYMBOLS.length = 79 := by decide

set_option maxRecDepth 4000 in

theorem oxs_symbol_inj_below_pool :
    ∀ i < 79, ∀ j < 79, i ≠ j → oxs_symbol i ≠ oxs_symbol j := by decide

/-! ### Shared length bounds for the quantisers -/

theorem median_cut_length_le (cc : List ColorCount) (k : ℕ) (hk : 1 ≤ k) :
    (median_cut cc k).length ≤ k := by
  rw [median_cut]
  by_cases hemp : cc = []
  · rw [if_pos hemp]
    simpa using hk
  · rw [if_neg hemp]
    by_cases hle : cc.length ≤ k
    · rw [if_pos hle]
      simpa using hle
    · rw [if_neg hle]
      rw [List.length_map]
      exact median_cut_loop_length k k [cc] (by simpa using hk)

theorem pil_collect_length_le (pal : List ℕ) (colours : List (ℕ × ℕ))
    (seen : List Rgb) : (pil_collect pal colours seen).length ≤ colours.length := by
  induction colours generalizing seen with
  | nil => simp [pil_collect]
  | cons ci rest ih =>
      simp only [pil_collect]
      by_cases h1 : pal.length ≤ ci.2 * 3 + 2
      · rw [if_pos h1]
        exact Nat.le_succ_of_le (ih seen)
      · rw [if_neg h1]
        by_cases h2 : Rgb.mk (pal.getD (ci.2 * 3) 0) (pal.getD (ci.2 * 3 + 1) 0)
            (pal.getD (ci.2 * 3 + 2) 0) ∈ seen
        · rw [if_pos h2]
          exact Nat.le_succ_of_le (ih seen)
        · rw [if_neg h2]
          simpa using ih _

theorem maybe_sample_id_of_nonpos (l : List Rgb) (psm : ℤ) (h : psm ≤ 0) :
    _maybe_sample_pixels l psm = l := by
  simp [_maybe_sample_pixels, h]

theorem unpack_pack (c : Rgb) (hr : c.r < 256) (hg : c.g < 256) (hb : c.b < 256) :
    unpack_rgb (pack_rgb c) = c := by
  cases c with
  | mk r g b =>
      simp only [pack_rgb, unpack_rgb, Rgb.mk.injEq]
      simp only at hr hg hb
      refine ⟨?_, ?_, ?_⟩ <;> omega

theorem dedup_map_left_inverse {α β : Type} [DecidableEq α] [DecidableEq β]
    (f : α → β) (g : β → α) (l : List α) (hinv : ∀ x ∈ l, g (f x) = x) :
    ((l.map f).dedup).map g = l.dedup := by
  induction l with
  | nil => simp
  | cons x xs ih =>
      have hx : g (f x) = x := hinv x (List.mem_cons_self x xs)
      have hxs : ∀ y ∈ xs, g (f y) = y := fun y hy => hinv y (List.mem_cons_of_mem _ hy)
      by_cases hmem : x ∈ xs
      · have hfmem : f x ∈ xs.map f := List.mem_map_of_mem f hmem
        rw [List.map_cons, List.dedup_cons_of_mem hfmem, List.dedup_cons_of_mem hmem]
        exact ih hxs
      · have hfmem : f x ∉ xs.map f := by
          intro hc
          obtain ⟨y, hy, hfy⟩ := List.mem_map.mp hc
          have hyx : y = x := by rw [← hxs y hy, hfy, hx]
          exact hmem (hyx ▸ hy)
        rw [List.map_cons, List.dedup_cons_of_not_mem hfmem,
          List.dedup_cons_of_not_mem hmem, List.map_cons, hx, ih hxs]

/-- C10: quantization of an empty input returns the empty color list
without raising: `median_cut([], k) = []` for every `k`, and
`_quantise_opaque_pixels` on a zero-pixel array returns `[]` regardless
of the method string, the PIL primitive, or the sampling cap. -/

theorem C10_empty_input_quantizes_to_empty :
    (∀ k : ℕ, median_cut [] k = []) ∧
    (∀ (pil : PilQuantizer) (k : ℕ) (method : String) (psm : ℤ),
      _quantise_opaque_pixels pil [] k method psm = some []) := by
  constructor
  · intro k
    rfl
  · intro pil k method psm
    rfl

/-- C8: a sample set no larger than `k` is returned unchanged.
`median_cut` returns exactly the samples' colors (in input order);
`_quantise_opaque_pixels` — on its fully embedded branch, i.e. with the
sampling cap disabled as by default, at most 250000 working pixels, and
at most `k` distinct colors — returns exactly the distinct pixel
colors (some order), no averaging, no padding. -/

theorem C8_small_sample_sets_unchanged :
    (∀ (cc : List ColorCount) (k : ℕ), cc.length ≤ k →
      median_cut cc k = cc.map (fun c => c.rgb)) ∧
    (∀ (pil : PilQuantizer) (pixels : List Rgb) (k : ℕ) (method : String) (psm : ℤ),
      psm ≤ 0 →
      pixels.length ≤ 250000 →
      ((pixels.map pack_rgb).dedup).length ≤ k →
      (∀ p ∈ pixels, p.r < 256 ∧ p.g < 256 ∧ p.b < 256) →
      ∃ out, _quantise_opaque_pixels pil pixels k method psm = some out ∧
        (out.map (fun q => q.rgb)).Perm pixels.dedup) := by
  constructor
  · intro cc k hle
    rw [median_cut]
    by_cases hemp : cc = []
    · rw [if_pos hemp, hemp]
      rfl
    · rw [if_neg hemp, if_pos hle]
  · intro pil pixels k method psm hpsm hn hdistinct hu8
    by_cases hemp : pixels = []
    · subst hemp
      exact ⟨[], rfl, by simp⟩
    · have hsample : _maybe_sample_pixels pixels psm = pixels :=
        maybe_sample_id_of_nonpos pixels psm hpsm
      have hcond : pixels.length ≤ 250000 ∧
          (stableSort (fun a b => a ≤ b) ((pixels.map pack_rgb).dedup)).length ≤ k := by
        exact ⟨hn, by rw [stableSort_length]; exact hdistinct⟩
      refine ⟨(stableSort (fun a b => b.2 ≤ a.2)
          ((stableSort (fun a b => a ≤ b) ((pixels.map pack_rgb).dedup)).map
            (fun v => (v, (pixels.map pack_rgb).count v)))).map
          (fun p => QuantisedColour.mk (unpack_rgb p.1) p.2), ?_, ?_⟩
      · simp only [_quantise_opaque_pixels, if_neg hemp, hsample]
        rw [if_pos hcond]
      · have h1 : ((stableSort (fun a b => b.2 ≤ a.2)
            ((stableSort (fun a b => a ≤ b) ((pixels.map pack_rgb).dedup)).map
              (fun v => (v, (pixels.map pack_rgb).count v)))).map
            (fun p => QuantisedColour.mk (unpack_rgb p.1) p.2)).map
              (fun q => q.rgb)
            = (stableSort (fun a b => b.2 ≤ a.2)
            ((stableSort (fun a b => a ≤ b) ((pixels.map pack_rgb).dedup)).map
              (fun v => (v, (pixels.map pack_rgb).count v)))).map
              (fun p => unpack_rgb p.1) := by
          rw [List.map_map]
          rfl
        rw [h1]
        have p1 : ((stableSort (fun a b => b.2 ≤ a.2)
            ((stableSort (fun a b => a ≤ b) ((pixels.map pack_rgb).dedup)).map
              (fun v => (v, (pixels.map pack_rgb).count v)))).map
              (fun p => unpack_rgb p.1)).Perm
            (((stableSort (fun a b => a ≤ b) ((pixels.map pack_rgb).dedup)).map
              (fun v => (v, (pixels.map pack_rgb).count v))).map
              (fun p => unpack_rgb p.1)) :=
          (stableSort_perm _ _).map _
        refine p1.trans ?_
        have h2 : (((stableSort (fun a b => a ≤ b) ((pixels.map pack_rgb).dedup)).map
              (fun v => (v, (pixels.map pack_rgb).count v))).map
              (fun p => unpack_rgb p.1))
            = (stableSort (fun a b => a ≤ b) ((pixels.map pack_rgb).dedup)).map
              unpack_rgb := by
          rw [List.map_map]
          rfl
        rw [h2]
        have p2 : ((stableSort (fun a b => a ≤ b) ((pixels.map pack_rgb).dedup)).map
            unpack_rgb).Perm (((pixels.map pack_rgb).dedup).map unpack_rgb) :=
          (stableSort_perm _ _).map _
        refine p2.trans ?_
        rw [dedup_map_left_inverse pack_rgb unpack_rgb pixels
          (fun x hx => unpack_pack x (hu8 x hx).1 (hu8 x hx).2.1 (hu8 x hx).2.2)]

/-- C9: both quantisers return at most `k` representative colors for
every `k` at least 1 (for the devops PIL branch, under PIL's own
contract that `quantize(colors=n)` yields at most `n` distinct palette
indices in `getcolors()`). -/

theorem C9_quantize_at_most_k_colors :
    (∀ (cc : List ColorCount) (k : ℕ), 1 ≤ k → (median_cut cc k).length ≤ k) ∧
    (∀ (pil : PilQuantizer) (pixels : List Rgb) (k : ℕ) (method : String) (psm : ℤ),
      1 ≤ k →
      (∀ flat mid cols, ((pil flat mid cols).colours).length ≤ cols) →
      ∀ out, _quantise_opaque_pixels pil pixels k method psm = some out →
        out.length ≤ k) := by
  constructor
  · exact median_cut_length_le
  · intro pil pixels k method psm hk hcontract out hout
    by_cases hemp : pixels = []
    · subst hemp
      simp only [_quantise_opaque_pixels, eq_self_iff_true, if_true,
        Option.some.injEq] at hout
      subst hout
      simp
    · simp only [_quantise_opaque_pixels, if_neg hemp] at hout
      by_cases hcond : (_maybe_sample_pixels pixels psm).length ≤ 250000 ∧
          (stableSort (fun a b => a ≤ b)
            (((_maybe_sample_pixels pixels psm).map pack_rgb).dedup)).length ≤ k
      · rw [if_pos hcond] at hout
        simp only [Option.some.injEq] at hout
        subst hout
        rw [List.length_map, stableSort_length, List.length_map]
        exact hcond.2
      · rw [if_neg hcond] at hout
        split at hout
        · exact absurd hout (by simp)
        · rename_i mid hmid
          simp only [Option.some.injEq] at hout
          subst hout
          refine le_trans (pil_collect_length_le _ _ _) ?_
          rw [stableSort_length]
          refine le_trans (hcontract _ _ _) ?_
          exact le_trans (Nat.min_le_left _ _) (le_refl k)

/-- C4 counterexample: a box whose red and green ranges tie at 8 (blue
range 0).  The claim's red-first tie-break demands a red split
(channel 0), but `median_cut`'s code (`if g_range >= r_range and
g_range >= b_range: channel = 1`) splits along green. -/

theorem C4_counterexample :
    split_channel [ColorCount.mk (Rgb.mk 0 0 0) 1, ColorCount.mk (Rgb.mk 8 8 0) 1] = 1 ∧
    box_channel_range [ColorCount.mk (Rgb.mk 0 0 0) 1, ColorCount.mk (Rgb.mk 8 8 0) 1] 0 = 8 ∧
    box_channel_range [ColorCount.mk (Rgb.mk 0 0 0) 1, ColorCount.mk (Rgb.mk 8 8 0) 1] 1 = 8 ∧
    box_channel_range [ColorCount.mk (Rgb.mk 0 0 0) 1, ColorCount.mk (Rgb.mk 8 8 0) 1] 2 = 0 ∧
    claimed_split_channel 8 8 0 = 0 ∧
    (1 : ℕ) ≠ 0 := by
  decide

/-- C4 (amended): every box split happens along a channel of maximal
range, but the tie-break order is green, then blue, then red: green is
chosen whenever its range is at least both others (so green, not red,
wins a red/green tie), blue is chosen when green is not and blue's
range is at least both others, and red is chosen only when its range
strictly exceeds both others. -/

theorem C4_split_channel_amended (box : List ColorCount) :
    (split_channel box = 1 ↔
      box_channel_range box 0 ≤ box_channel_range box 1 ∧
      box_channel_range box 2 ≤ box_channel_range box 1) ∧
    (split_channel box = 0 ↔
      box_channel_range box 1 < box_channel_range box 0 ∧
      box_channel_range box 2 < box_channel_range box 0) ∧
    (split_channel box = 2 ↔
      ¬(box_channel_range box 0 ≤ box_channel_range box 1 ∧
        box_channel_range box 2 ≤ box_channel_range box 1) ∧
      box_channel_range box 0 ≤ box_channel_range box 2 ∧
      box_channel_range box 1 ≤ box_channel_range box 2) ∧
    box_channel_range box (split_channel box) = box_volume box := by
  have e0 : box_channel_range box 0 = box_r_max box - box_r_min box := rfl
  have e1 : box_channel_range box 1 = box_g_max box - box_g_min box := rfl
  have e2 : box_channel_range box 2 = box_b_max box - box_b_min box := rfl
  simp only [split_channel]
  by_cases h1 : box_r_max box - box_r_min box ≤ box_g_max box - box_g_min box ∧
      box_b_max box - box_b_min box ≤ box_g_max box - box_g_min box
  · rw [if_pos h1]
    refine ⟨?_, ?_, ?_, ?_⟩
    · simp [e0, e1, e2, h1]
    · simp only [e0, e1, e2]
      constructor
      · intro h
        exact absurd h (by simp)
      · intro h
        omega
    · simp only [e0, e1, e2]
      constructor
      · intro h
        exact absurd h (by simp)
      · intro h
        exact absurd h1 h.1
    · simp only [e1, box_volume]
      omega
  · rw [if_neg h1]
    by_cases h2 : box_r_max box - box_r_min box ≤ box_b_max box - box_b_min box ∧
        box_g_max box - box_g_min box ≤ box_b_max box - box_b_min box
    · rw [if_pos h2]
      refine ⟨?_, ?_, ?_, ?_⟩
      · simp only [e0, e1, e2]
        constructor
        · intro h
          exact absurd h (by simp)
        · intro h
          exact absurd h h1
      · simp only [e0, e1, e2]
        constructor
        · intro h
          exact absurd h (by simp)
        · intro h
          omega
      · simp only [e0, e1, e2]
        constructor
        · intro _
          exact ⟨h1, h2.1, h2.2⟩
        · intro _
          trivial
      · simp only [e2, box_volume]
        omega
    · rw [if_neg h2]
      refine ⟨?_, ?_, ?_, ?_⟩
      · simp only [e0, e1, e2]
        constructor
        · intro h
          exact absurd h (by simp)
        · intro h
          exact absurd h h1
      · simp only [e0, e1, e2]
        constructor
        · intro h
          omega
        · intro h
          simp
      · simp only [e0, e1, e2]
        constructor
        · intro h
          exact absurd h (by simp)
        · intro h
          exact absurd h.2 h2
      · simp only [e0, box_volume]
        omega

/-! ### Claims C5 and C2 — compaction and grid validity -/

theorem _prune_unused_palette_to_prune_unused {α : Type} (cat : Char → String)
    (pool : List (List Char)) (palette : List (PalItem α)) (targets : List ℕ)
    (pal2 : List (PalItem α)) (t2 : List ℕ)
    (h : _prune_unused_palette cat pool palette targets = some (pal2, t2)) :
    ∃ pal1, prune_unused palette targets = some (pal1, t2) ∧
      pal2.length = pal1.length := by
  simp only [_prune_unused_palette] at h
  by_cases hnil : used_values targets = []
  · rw [if_pos hnil] at h
    exact absurd h (by simp)
  · rw [if_neg hnil] at h
    split at h
    · exact absurd h (by simp)
    · rename_i outPalette hsel
      split at h
      · exact absurd h (by simp)
      · rename_i outPalette2 hasn
        simp only [Option.some.injEq, Prod.mk.injEq] at h
        obtain ⟨h1, h2⟩ := h
        subst h1
        subst h2
        refine ⟨outPalette, ?_, assign_symbols_go_length _ _ _ _ _ hasn⟩
        simp [prune_unused, hnil, hsel]

theorem _prune_unused_palette_none_of_all_sentinel {α : Type} (cat : Char → String)
    (pool : List (List Char)) (palette : List (PalItem α)) (targets : List ℕ)
    (h : ∀ t ∈ targets, t = NO_STITCH) :
    _prune_unused_palette cat pool palette targets = none := by
  simp [_prune_unused_palette, used_values_nil_of_all_sentinel targets h]

theorem prune_unused_exact_range (palette : List α) (targets : List ℕ)
    (newPal : List α) (newT : List ℕ)
    (h : prune_unused palette targets = some (newPal, newT))
    (hbound : newPal.length ≤ NO_STITCH) :
    ∀ m : ℕ, (m ∈ newT ∧ m ≠ NO_STITCH) ↔ m < newPal.length := by
  obtain ⟨hlen, hTlen, hcells, hback, hle⟩ := prune_unused_spec palette targets newPal newT h
  intro m
  constructor
  · rintro ⟨hmem, hne⟩
    rcases hcells m hmem with h1 | h1
    · exact absurd h1 hne
    · exact h1
  · intro hm
    have hne : m ≠ NO_STITCH := by omega
    exact ⟨hback m hm hne, hne⟩

/-- C5: compaction, for every palette and target grid referencing it
(non-sentinel cells are valid indices, the data-model invariant of §3,
and the palette is no longer than the sentinel value): when at least
one non-sentinel cell exists the batch compaction succeeds and the set
of non-sentinel values of the new targets is exactly
`{0, ..., len(new_palette) - 1}`; when no non-sentinel value exists it
fails.  The devops `_prune_unused_palette` satisfies the same range
exactness whenever it returns, and fails on an all-sentinel grid. -/

theorem C5_compaction_exact_range_or_fail :
    (∀ (α : Type) (palette : List α) (targets : List ℕ),
      (∀ t ∈ targets, t ≠ NO_STITCH → t < palette.length) →
      palette.length ≤ NO_STITCH →
      (∃ t ∈ targets, t ≠ NO_STITCH) →
      ∃ newPal newT, prune_unused palette targets = some (newPal, newT) ∧
        newT.length = targets.length ∧
        ∀ m : ℕ, (m ∈ newT ∧ m ≠ NO_STITCH) ↔ m < newPal.length) ∧
    (∀ (α : Type) (palette : List α) (targets : List ℕ),
      (∀ t ∈ targets, t = NO_STITCH) → prune_unused palette targets = none) ∧
    (∀ (α : Type) (cat : Char → String) (pool : List (List Char))
        (palette : List (PalItem α)) (targets : List ℕ)
        (newPal : List (PalItem α)) (newT : List ℕ),
      _prune_unused_palette cat pool palette targets = some (newPal, newT) →
      palette.length ≤ NO_STITCH →
      newT.length = targets.length ∧
      ∀ m : ℕ, (m ∈ newT ∧ m ≠ NO_STITCH) ↔ m < newPal.length) ∧
    (∀ (α : Type) (cat : Char → String) (pool : List (List Char))
        (palette : List (PalItem α)) (targets : List ℕ),
      (∀ t ∈ targets, t = NO_STITCH) →
      _prune_unused_palette cat pool palette targets = none) := by
  refine ⟨?_, ?_, ?_, ?_⟩
  · intro α palette targets hval hlen hne
    obtain ⟨newPal, newT, hsome⟩ := prune_unused_isSome palette targets hval hne
    obtain ⟨_, hTlen, _, _, hle⟩ := prune_unused_spec palette targets newPal newT hsome
    exact ⟨newPal, newT, hsome, hTlen,
      prune_unused_exact_range palette targets newPal newT hsome (le_trans hle hlen)⟩
  · intro α palette targets hall
    exact prune_unused_none_of_all_sentinel palette targets hall
  · intro α cat pool palette targets newPal newT h hlen
    obtain ⟨pal1, hsome, hleneq⟩ :=
      _prune_unused_palette_to_prune_unused cat pool palette targets newPal newT h
    obtain ⟨_, hTlen, _, _, hle⟩ := prune_unused_spec palette targets pal1 newT hsome
    refine ⟨hTlen, ?_⟩
    rw [hleneq]
    exact prune_unused_exact_range palette targets pal1 newT hsome (le_trans hle hlen)
  · intro α cat pool palette targets hall
    exact _prune_unused_palette_none_of_all_sentinel cat pool palette targets hall

/-- C5 witness: a one-entry palette with a single stitched cell
satisfies the hypotheses, and compaction returns the exact range
`{0}`. -/

theorem C5_compaction_witness :
    ((∀ t ∈ [0], t ≠ NO_STITCH → t < ([5] : List ℕ).length) ∧
      ([5] : List ℕ).length ≤ NO_STITCH ∧ (∃ t ∈ [0], t ≠ NO_STITCH)) ∧
    (∃ newPal newT, prune_unused ([5] : List ℕ) [0] = some (newPal, newT) ∧
      newT.length = ([0] : List ℕ).length ∧
      ∀ m : ℕ, (m ∈ newT ∧ m ≠ NO_STITCH) ↔ m < newPal.length) :=
  ⟨⟨by decide, by decide, ⟨0, by decide, by decide⟩⟩,
    C5_compaction_exact_range_or_fail.1 ℕ [5] [0] (by decide) (by decide)
      ⟨0, by decide, by decide⟩⟩

theorem map_to_dmc_length (qs : List Rgb) : (map_to_dmc qs).length = qs.length :=
  map_to_dmc_go_length qs []

/-- C2: in every pattern document the batch conversion returns (for a
requested palette size between 1 and the sentinel value), each target
cell is either `NO_STITCH` or a valid index into the returned palette,
and the sentinel never equals a valid post-compaction index (the
palette is strictly shorter than the sentinel's value bound).  The
devops compaction guarantees the same for every grid stored as
`np.uint16` (all values below 65536). -/

theorem C2_pattern_document_cells_valid :
    (∀ (pixels : List Rgba) (use_dmc : Bool) (k : ℕ) (doc : PatternDocument),
      1 ≤ k → k ≤ NO_STITCH →
      convert_image_to_pattern pixels use_dmc k = Except.ok doc →
      (∀ t ∈ doc.targets, t = NO_STITCH ∨ t < doc.palette.length) ∧
      doc.palette.length ≤ NO_STITCH) ∧
    (∀ (α : Type) (cat : Char → String) (pool : List (List Char))
        (palette : List (PalItem α)) (targets : List ℕ)
        (newPal : List (PalItem α)) (newT : List ℕ),
      _prune_unused_palette cat pool palette targets = some (newPal, newT) →
      (∀ t ∈ targets, t < 65536) →
      (∀ t ∈ newT, t = NO_STITCH ∨ t < newPal.length) ∧
      newPal.length ≤ NO_STITCH) := by
  constructor
  · intro pixels use_dmc k doc hk hkNO h
    simp only [convert_image_to_pattern] at h
    split at h
    · exact absurd h (by simp)
    · rename_i np nt hsel
      simp only [Except.ok.injEq] at h
      subst h
      obtain ⟨hlen, hTlen, hcells, hback, hle⟩ := prune_unused_spec _ _ np nt hsel
      have hpal : (if use_dmc = true then
          (map_to_dmc (median_cut (collect_color_counts pixels) k)).map
            (fun m => BatchPaletteEntry.mk (some m.1.code) m.1.rgb)
        else (median_cut (collect_color_counts pixels) k).map
            (fun c => BatchPaletteEntry.mk none c)).length ≤ k := by
        by_cases hdmc : use_dmc = true
        · rw [if_pos hdmc, List.length_map, map_to_dmc_length]
          exact median_cut_length_le _ k hk
        · rw [if_neg hdmc, List.length_map]
          exact median_cut_length_le _ k hk
      constructor
      · intro t ht
        exact hcells t ht
      · exact le_trans hle (le_trans hpal hkNO)
  · intro α cat pool palette targets newPal newT h h16
    obtain ⟨pal1, hsome, hleneq⟩ :=
      _prune_unused_palette_to_prune_unused cat pool palette targets newPal newT h
    obtain ⟨hlen, hTlen, hcells, hback, hle⟩ := prune_unused_spec _ _ pal1 newT hsome
    have hbound : newPal.length ≤ NO_STITCH := by
      rw [hleneq, hlen]
      refine nodup_lt_length_le _ NO_STITCH (used_values_nodup targets) ?_
      intro v hv
      obtain ⟨hvt, hvne⟩ := (mem_used_values targets v).mp hv
      have := h16 v hvt
      have hNO : NO_STITCH = 65535 := rfl
      omega
    refine ⟨?_, hbound⟩
    intro t ht
    rcases hcells t ht with h1 | h1
    · exact Or.inl h1
    · exact Or.inr (by rw [hleneq]; exact h1)

/-- C2 witness: a one-pixel opaque image converted without catalog
mapping yields a document whose single cell indexes the one-entry
palette, with the sentinel out of range. -/

theorem C2_pattern_document_cells_valid_witness :
    (1 ≤ 4 ∧ 4 ≤ NO_STITCH ∧
      convert_image_to_pattern [Rgba.mk 0 0 0 255] false 4 =
        Except.ok (PatternDocument.mk [BatchPaletteEntry.mk none (Rgb.mk 0 0 0)] [0])) ∧
    ((∀ t ∈ (PatternDocument.mk [BatchPaletteEntry.mk none (Rgb.mk 0 0 0)] [0]).targets,
        t = NO_STITCH ∨
          t < (PatternDocument.mk [BatchPaletteEntry.mk none (Rgb.mk 0 0 0)] [0]).palette.length) ∧
      (PatternDocument.mk [BatchPaletteEntry.mk none (Rgb.mk 0 0 0)] [0]).palette.length
        ≤ NO_STITCH) :=
  ⟨⟨by decide, by decide, rfl⟩,
    C2_pattern_document_cells_valid.1 [Rgba.mk 0 0 0 255] false 4
      (PatternDocument.mk [BatchPaletteEntry.mk none (Rgb.mk 0 0 0)] [0])
      (by decide) (by decide) rfl⟩

/-! ### Claim C6 — unique symbols, idempotence -/

/-- C6: the symbol allocator never outputs two equal symbols for any
palette it succeeds on (success is exactly "within the pool's
capacity"; the pool consists of already-stripped single characters, as
`get_symbol_pool` produces), and it is a no-op on palettes whose stored
symbols are already valid and pairwise distinct.  The batch serializer
(`SYMBOLS[i % len(SYMBOLS)]`) likewise assigns pairwise distinct
symbols to any palette within its pool capacity of 79. -/

theorem C6_symbol_allocator_unique_and_idempotent :
    (∀ (α : Type) (cat : Char → String) (pool : List (List Char))
        (palette out : List (PalItem α)),
      (∀ s ∈ pool, pyStrip s = s) →
      _assign_unique_symbols cat pool palette = some out →
      (out.map (fun p => p.symbol)).Nodup) ∧
    (∀ (α : Type) (cat : Char → String) (pool : List (List Char))
        (palette : List (PalItem α)),
      (∀ p ∈ palette, good_symbol cat p.symbol = true) →
      (palette.map (fun p => p.symbol)).Nodup →
      _assign_unique_symbols cat pool palette = some palette) ∧
    (∀ n : ℕ, n ≤ SYMBOLS.length → ∀ i j : ℕ, i < j → j < n →
      oxs_symbol i ≠ oxs_symbol j) := by
  refine ⟨?_, ?_, ?_⟩
  · intro α cat pool palette out hpool h
    obtain ⟨hnd, _⟩ := assign_symbols_go_strips cat palette pool [] out hpool h
    have hmm : ((out.map (fun p => p.symbol)).map pyStrip).Nodup := by
      rw [List.map_map]
      exact hnd
    exact List.Nodup.of_map pyStrip hmm
  · intro α cat pool palette hgood hnd
    exact assign_symbols_go_id cat pool palette [] hgood hnd (by simp)
  · intro n hn i j hij hj
    have h79 : SYMBOLS.length = 79 := SYMBOLS_length
    exact oxs_symbol_inj_below_pool i (by omega) j (by omega) (by omega)

/-- C6 witness: a palette with a duplicate symbol gets the second
entry repaired from the pool, and the result has pairwise distinct
symbols. -/

theorem C6_symbol_allocator_witness :
    ((∀ s ∈ [['a'], ['b']], pyStrip s = s) ∧
      _assign_unique_symbols (fun _ => "Lo") [['a'], ['b']]
          [PalItem.mk 0 ['x'], PalItem.mk 1 ['x']]
        = some [PalItem.mk 0 ['x'], PalItem.mk 1 ['a']]) ∧
    (([PalItem.mk (0 : ℕ) ['x'], PalItem.mk 1 ['a']].map (fun p => p.symbol)).Nodup) :=
  ⟨⟨by decide, by decide⟩,
    C6_symbol_allocator_unique_and_idempotent.1 ℕ (fun _ => "Lo") [['a'], ['b']]
      [PalItem.mk 0 ['x'], PalItem.mk 1 ['x']]
      [PalItem.mk 0 ['x'], PalItem.mk 1 ['a']] (by decide) (by decide)⟩

/-! ### Claim C1 — catalog mapping -/

set_option maxRecDepth 10000 in

/-- C1 counterexample: on the input `[black, black]` the batch
`map_to_dmc` (the 1.5x penalty scan the claim describes) assigns code
`310` twice — the penalised distance of the already-used zero-distance
entry still wins, reuse allowed.  The devops `_map_quantised_to_dmc`
instead sets used entries' distances to infinity and returns code
`3371` for **both** positions (its `by_rgb` reordering keeps the last
result per RGB value), although `310` is the unique catalog entry at
distance zero from black — so the devops mapper does not implement the
claimed penalised-minimum rule. -/

theorem C1_counterexample :
    (map_to_dmc [Rgb.mk 0 0 0, Rgb.mk 0 0 0]).map (fun m => m.1.code)
      = ["310", "310"] ∧
    (_map_quantised_to_dmc [QuantisedColour.mk (Rgb.mk 0 0 0) 1,
        QuantisedColour.mk (Rgb.mk 0 0 0) 1]).map (fun m => m.1.code)
      = ["3371", "3371"] ∧
    (DMC_COLORS_RGB.filter
        (fun e => color_distance_sq512 (Rgb.mk 0 0 0) e.rgb ≤ 0)).map
      (fun e => e.code) = ["310"] := by
  refine ⟨?_, ?_, ?_⟩ <;> rfl

set_option maxRecDepth 10000 in

/-- C1 (amended): the batch `map_to_dmc` works as the claim states —
each color is assigned an entry of the full catalog minimizing the
penalised distance (distance multiplied by 1.5 when the entry's code is
already used, modelled exactly by the 9/4-scaled squared comparison),
the code is then marked used, and output length equals input length;
reuse stays possible.  The devops `_map_quantised_to_dmc`, however,
excludes already-used entries outright (`dist_sq[used] = np.inf`): each
step picks an **unused** index of minimal distance whenever an unused
index remains, so an entry is never assigned twice while unused entries
exist. -/

theorem C1_catalog_mapper_amended :
    (∀ (used : List String) (c : Rgb) (rest : List Rgb),
      ∃ e, map_to_dmc_go (c :: rest) used
          = (e, c) :: map_to_dmc_go rest (e.code :: used) ∧
        e ∈ DMC_COLORS_RGB ∧
        ∀ e2 ∈ DMC_COLORS_RGB,
          map_to_dmc_adjusted used c e ≤ map_to_dmc_adjusted used c e2) ∧
    (∀ qs : List Rgb, (map_to_dmc qs).length = qs.length) ∧
    (∀ (used : List ℕ) (c : Rgb),
      (∃ i, i < DMC_COLORS_RGB.length ∧ i ∉ used) →
      ∃ e, DMC_COLORS_RGB[_map_quantised_to_dmc_argmin used c]? = some e ∧
        _map_quantised_to_dmc_argmin used c ∉ used ∧
        ∀ j : ℕ, ∀ e2, DMC_COLORS_RGB[j]? = some e2 → j ∉ used →
          color_distance_sq512 c e.rgb ≤ color_distance_sq512 c e2.rgb) := by
  refine ⟨?_, map_to_dmc_length, ?_⟩
  · intro used c rest
    obtain ⟨e, he, hmin⟩ := map_to_dmc_choice_spec used c
    refine ⟨e, ?_, ?_, hmin⟩
    · simp only [map_to_dmc_go]
      rw [he]
    · obtain ⟨hlt, hget⟩ := List.getElem?_eq_some.mp he
      exact hget ▸ List.getElem_mem hlt
  · intro used c hex
    simp only [_map_quantised_to_dmc_argmin]
    have hlen_vals : (dmc_inf_values used c).length = DMC_COLORS_RGB.length := by
      simp [dmc_inf_values, List.enum_length]
    have hne : dmc_inf_values used c ≠ [] := by
      intro hcon
      have hlz := congrArg List.length hcon
      rw [hlen_vals] at hlz
      exact DMC_COLORS_RGB_ne_nil (List.eq_nil_of_length_eq_zero (by simpa using hlz))
    obtain ⟨hj, hmin⟩ := firstArgmin_spec (dmc_inf_values used c) hne
    have hjlt : firstArgmin (dmc_inf_values used c) < DMC_COLORS_RGB.length := by
      rw [← hlen_vals]
      exact hj
    have hval : ∀ m : ℕ, ∀ hm : m < DMC_COLORS_RGB.length,
        ∀ hm2 : m < (dmc_inf_values used c).length,
        (dmc_inf_values used c).get ⟨m, hm2⟩
          = (if m ∈ used then none
            else some (color_distance_sq512 c (DMC_COLORS_RGB.get ⟨m, hm⟩).rgb)) := by
      intro m hm hm2
      have h1 : (dmc_inf_values used c).get ⟨m, hm2⟩ = (dmc_inf_values used c)[m] := rfl
      rw [h1]
      simp only [dmc_inf_values]
      rw [List.getElem_map, List.getElem_enum]
      rfl
    have hw := hval (firstArgmin (dmc_inf_values used c)) hjlt hj
    by_cases hused : firstArgmin (dmc_inf_values used c) ∈ used
    · exfalso
      obtain ⟨i, hilt, hiu⟩ := hex
      have hi2 : i < (dmc_inf_values used c).length := by
        rw [hlen_vals]
        exact hilt
      have hxval := hval i hilt hi2
      rw [if_pos hused] at hw
      have hx : (dmc_inf_values used c).get ⟨i, hi2⟩ ∈ dmc_inf_values used c :=
        List.get_mem _ _ _
      have hmx := hmin _ hx
      rw [hxval, if_neg hiu, hw] at hmx
      simp [optLtInf] at hmx
    · rw [if_neg hused] at hw
      refine ⟨DMC_COLORS_RGB.get ⟨firstArgmin (dmc_inf_values used c), hjlt⟩,
        List.getElem?_eq_getElem hjlt, hused, ?_⟩
      intro j e2 he2 hju
      obtain ⟨hjlt2, hget2⟩ := List.getElem?_eq_some.mp he2
      have hj2 : j < (dmc_inf_values used c).length := by
        rw [hlen_vals]
        exact hjlt2
      have hxval := hval j hjlt2 hj2
      rw [if_neg hju] at hxval
      have hx : (dmc_inf_values used c).get ⟨j, hj2⟩ ∈ dmc_inf_values used c :=
        List.get_mem _ _ _
      have hmx := hmin _ hx
      rw [hxval, hw] at hmx
      simp only [optLtInf, decide_eq_false_iff_not, not_lt] at hmx
      have hg : (DMC_COLORS_RGB.get ⟨j, hjlt2⟩ : DmcColor) = e2 := by
        rw [← hget2]
        rfl
      rw [← hg]
      exact hmx

set_option maxRecDepth 10000 in

/-- C1 witness: with no codes used yet, the devops per-step choice
lands on an in-range unused entry of minimal distance. -/

theorem C1_catalog_mapper_witness :
    (∃ i, i < DMC_COLORS_RGB.length ∧ i ∉ ([] : List ℕ)) ∧
    (∃ e, DMC_COLORS_RGB[_map_quantised_to_dmc_argmin [] (Rgb.mk 0 0 0)]? = some e ∧
      _map_quantised_to_dmc_argmin [] (Rgb.mk 0 0 0) ∉ ([] : List ℕ) ∧
      ∀ j : ℕ, ∀ e2, DMC_COLORS_RGB[j]? = some e2 → j ∉ ([] : List ℕ) →
        color_distance_sq512 (Rgb.mk 0 0 0) e.rgb
          ≤ color_distance_sq512 (Rgb.mk 0 0 0) e2.rgb) :=
  ⟨⟨0, by decide, by decide⟩,
    C1_catalog_mapper_amended.2.2 [] (Rgb.mk 0 0 0) ⟨0, by decide, by decide⟩⟩

set_option maxRecDepth 10000 in

/-- C3 counterexample: converting the five-pixel image with
`max_colors = 2` and catalog mapping on, pixel 3 (RGB (46,133,187), row
major cell 3) receives target 0 (DMC 797, RGB (19,70,165)), although
palette entry 1 (DMC 3851, RGB (73,169,137)) is strictly redmean-closer
to the pixel itself.  So the assigned target is not the index
minimizing the perceptual distance to the pixel's RGB over the final
palette — it minimizes the distance from the pixel's quantized
representative instead. -/

theorem C3_counterexample :
    convert_image_to_pattern c3_pixels true 2
      = Except.ok (PatternDocument.mk
        [BatchPaletteEntry.mk (some "797") (Rgb.mk 19 70 165),
          BatchPaletteEntry.mk (some "3851") (Rgb.mk 73 169 137)]
        [1, 0, 0, 0, 1]) ∧
    color_distance_sq512 (Rgb.mk 46 133 187) (Rgb.mk 73 169 137) <
      color_distance_sq512 (Rgb.mk 46 133 187) (Rgb.mk 19 70 165) := by
  exact ⟨rfl, by decide⟩

/-- C3 (amended): with catalog mapping off, each opaque pixel's target
is an index of the final color list minimizing the redmean distance to
the pixel's RGB, as claimed.  With catalog mapping on, the batch
assignment is two-stage: the target minimizes the redmean distance
from the pixel's **quantized representative** (the nearest quantized
color) to the palette colors, which can differ from the direct
arg-min for the pixel itself; the devops pipeline delegates this
per-pixel assignment to PIL's palette quantizer, outside the redmean
metric entirely. -/

theorem C3_pixel_assignment_amended :
    (∀ (quantized palette_rgb : List Rgb) (c : Rgb), quantized ≠ [] →
      ∃ hq : assign_target false quantized palette_rgb c < quantized.length,
        ∀ p ∈ quantized,
          color_distance_sq512 c
              (quantized.get ⟨assign_target false quantized palette_rgb c, hq⟩)
            ≤ color_distance_sq512 c p) ∧
    (∀ (quantized palette_rgb : List Rgb) (c : Rgb),
      quantized ≠ [] → palette_rgb ≠ [] →
      ∃ hq : find_closest_palette_index c quantized < quantized.length,
        ∃ ht : assign_target true quantized palette_rgb c < palette_rgb.length,
          ∀ p ∈ palette_rgb,
            color_distance_sq512
                (quantized.get ⟨find_closest_palette_index c quantized, hq⟩)
                (palette_rgb.get ⟨assign_target true quantized palette_rgb c, ht⟩)
              ≤ color_distance_sq512
                (quantized.get ⟨find_closest_palette_index c quantized, hq⟩) p) := by
  constructor
  · intro quantized palette_rgb c hq
    obtain ⟨hlt, hmin⟩ := find_closest_palette_index_spec c quantized hq
    exact ⟨hlt, hmin⟩
  · intro quantized palette_rgb c hq hp
    obtain ⟨hlt1, _⟩ := find_closest_palette_index_spec c quantized hq
    have hgetD : quantized.getD (find_closest_palette_index c quantized) (Rgb.mk 0 0 0)
        = quantized.get ⟨find_closest_palette_index c quantized, hlt1⟩ :=
      List.getD_eq_getElem quantized _ hlt1
    have hassign : assign_target true quantized palette_rgb c
        = find_closest_palette_index
            (quantized.get ⟨find_closest_palette_index c quantized, hlt1⟩) palette_rgb := by
      simp only [assign_target, if_true]
      rw [hgetD]
    obtain ⟨hlt2, hmin2⟩ := find_closest_palette_index_spec
      (quantized.get ⟨find_closest_palette_index c quantized, hlt1⟩) palette_rgb hp
    rw [hassign]
    exact ⟨hlt1, hlt2, hmin2⟩

/-- C3 witness: singleton lists satisfy the nonemptiness hypotheses,
and the two-stage target minimizes the distance from the quantized
representative. -/

theorem C3_pixel_assignment_witness :
    (([Rgb.mk 0 0 0] : List Rgb) ≠ [] ∧ ([Rgb.mk 1 1 1] : List Rgb) ≠ []) ∧
    (∃ hq : find_closest_palette_index (Rgb.mk 5 5 5) [Rgb.mk 0 0 0]
        < ([Rgb.mk 0 0 0] : List Rgb).length,
      ∃ ht : assign_target true [Rgb.mk 0 0 0] [Rgb.mk 1 1 1] (Rgb.mk 5 5 5)
          < ([Rgb.mk 1 1 1] : List Rgb).length,
        ∀ p ∈ ([Rgb.mk 1 1 1] : List Rgb),
          color_distance_sq512
              (([Rgb.mk 0 0 0] : List Rgb).get
                ⟨find_closest_palette_index (Rgb.mk 5 5 5) [Rgb.mk 0 0 0], hq⟩)
              (([Rgb.mk 1 1 1] : List Rgb).get
                ⟨assign_target true [Rgb.mk 0 0 0] [Rgb.mk 1 1 1] (Rgb.mk 5 5 5), ht⟩)
            ≤ color_distance_sq512
              (([Rgb.mk 0 0 0] : List Rgb).get
                ⟨find_closest_palette_index (Rgb.mk 5 5 5) [Rgb.mk 0 0 0], hq⟩) p) :=
  ⟨⟨by decide, by decide⟩,
    C3_pixel_assignment_amended.2 [Rgb.mk 0 0 0] [Rgb.mk 1 1 1] (Rgb.mk 5 5 5)
      (by decide) (by decide)⟩

/-! ### Claim C7 — failure on fully transparent input -/

/-- C7 counterexample: a single fully transparent pixel.  The devops
build raises its no-opaque-pixels error up front, but the batch
converter collects an empty sample map, runs `median_cut` on it
(returning `[]`), assigns every cell the sentinel, and only then fails
with its post-assignment "No stitches found" outcome — there is no
pre-quantization `NoOpaquePixelsError` in `batch_converter.py` at
all. -/

theorem C7_counterexample :
    convert_image_to_pattern [Rgba.mk 10 20 30 0] true 16
      = Except.error BatchFailure.noStitchesAfterAssignment ∧
    median_cut (collect_color_counts [Rgba.mk 10 20 30 0]) 16 = [] ∧
    _build_palette_and_targets (fun _ _ _ => PilResult.mk [] []) (fun _ _ => 0)
        (fun _ => "Lo") [] (fun _ => ['x']) [Rgba.mk 10 20 30 0] 16 true
        "median-cut" 128 0
      = Except.error DevopsFailure.noOpaquePixels := by
  exact ⟨rfl, rfl, rfl⟩

theorem collect_color_counts_all_transparent (pixels : List Rgba)
    (h : ∀ p ∈ pixels, p.a < 128) : collect_color_counts pixels = [] := by
  have hgen : ∀ (l : List Rgba) (acc : List ColorCount), (∀ p ∈ l, p.a < 128) →
      l.foldl (fun acc p => if p.a < 128 then acc
        else bump_color acc (Rgb.mk p.r p.g p.b)) acc = acc := by
    intro l
    induction l with
    | nil => intro acc _; rfl
    | cons p ps ih =>
        intro acc hall
        simp only [List.foldl_cons, if_pos (hall p (List.mem_cons_self p ps))]
        exact ih acc (fun q hq => hall q (List.mem_cons_of_mem p hq))
  exact hgen pixels [] h

/-- C7 (amended): the devops `_build_palette_and_targets` raises its
no-opaque-pixels failure before quantization whenever every pixel falls
below the alpha threshold — no samples are collected and the result
does not depend on the quantization primitive at all.  The batch
converter has no such pre-quantization error: on an all-transparent
image it collects an empty sample map, still invokes `median_cut`
(which returns `[]`), and fails only after pixel assignment with the
no-stitches outcome. -/

theorem C7_no_opaque_pixels_amended :
    (∀ (pil : PilQuantizer) (assigner : List Rgb → Rgb → ℕ) (cat : Char → String)
        (pool : List (List Char)) (dmcSym : String → List Char)
        (pixels : List Rgba) (mc : ℕ) (dmc : Bool) (method : String)
        (thr : ℕ) (psm : ℤ),
      (∀ p ∈ pixels, p.a < thr) →
      _build_palette_and_targets pil assigner cat pool dmcSym pixels mc dmc
          method thr psm
        = Except.error DevopsFailure.noOpaquePixels) ∧
    (∀ (pil1 pil2 : PilQuantizer) (assigner : List Rgb → Rgb → ℕ)
        (cat : Char → String) (pool : List (List Char)) (dmcSym : String → List Char)
        (pixels : List Rgba) (mc : ℕ) (dmc : Bool) (method : String)
        (thr : ℕ) (psm : ℤ),
      (∀ p ∈ pixels, p.a < thr) →
      _build_palette_and_targets pil1 assigner cat pool dmcSym pixels mc dmc
          method thr psm
        = _build_palette_and_targets pil2 assigner cat pool dmcSym pixels mc dmc
          method thr psm) ∧
    (∀ (pixels : List Rgba) (dmc : Bool) (k : ℕ),
      (∀ p ∈ pixels, p.a < 128) →
      collect_color_counts pixels = [] ∧
      convert_image_to_pattern pixels dmc k
        = Except.error BatchFailure.noStitchesAfterAssignment) := by
  have hgate : ∀ (pixels : List Rgba) (thr : ℕ), (∀ p ∈ pixels, p.a < thr) →
      pixels.all (fun p => decide (p.a < thr)) = true := by
    intro pixels thr hall
    rw [List.all_eq_true]
    intro p hp
    exact decide_eq_true (hall p hp)
  refine ⟨?_, ?_, ?_⟩
  · intro pil assigner cat pool dmcSym pixels mc dmc method thr psm hall
    simp only [_build_palette_and_targets]
    rw [if_pos (by simpa using hgate pixels thr hall)]
  · intro pil1 pil2 assigner cat pool dmcSym pixels mc dmc method thr psm hall
    have h1 : _build_palette_and_targets pil1 assigner cat pool dmcSym pixels mc
        dmc method thr psm = Except.error DevopsFailure.noOpaquePixels := by
      simp only [_build_palette_and_targets]
      rw [if_pos (by simpa using hgate pixels thr hall)]
    have h2 : _build_palette_and_targets pil2 assigner cat pool dmcSym pixels mc
        dmc method thr psm = Except.error DevopsFailure.noOpaquePixels := by
      simp only [_build_palette_and_targets]
      rw [if_pos (by simpa using hgate pixels thr hall)]
    rw [h1, h2]
  · intro pixels dmc k hall
    refine ⟨collect_color_counts_all_transparent pixels hall, ?_⟩
    simp only [convert_image_to_pattern]
    have hnone : prune_unused
        (if dmc = true then
          (map_to_dmc (median_cut (collect_color_counts pixels) k)).map
            (fun m => BatchPaletteEntry.mk (some m.1.code) m.1.rgb)
        else (median_cut (collect_color_counts pixels) k).map
            (fun c => BatchPaletteEntry.mk none c))
        (pixels.map (fun p =>
          if p.a < 128 then NO_STITCH
          else assign_target dmc (median_cut (collect_color_counts pixels) k)
            ((if dmc = true then
              (map_to_dmc (median_cut (collect_color_counts pixels) k)).map
                (fun m => BatchPaletteEntry.mk (some m.1.code) m.1.rgb)
            else (median_cut (collect_color_counts pixels) k).map
                (fun c => BatchPaletteEntry.mk none c)).map (fun e => e.rgb))
            (Rgb.mk p.r p.g p.b))) = none := by
      refine prune_unused_none_of_all_sentinel _ _ ?_
      intro t ht
      obtain ⟨p, hp, hval⟩ := List.mem_map.mp ht
      rw [← hval, if_pos (hall p hp)]
    rw [hnone]

/-- C7 witness: on a one-pixel transparent image the batch pipeline
collects nothing and fails with the post-assignment outcome. -/

theorem C7_no_opaque_pixels_witness :
    (∀ p ∈ [Rgba.mk 1 2 3 0], p.a < 128) ∧
    (collect_color_counts [Rgba.mk 1 2 3 0] = [] ∧
      convert_image_to_pattern [Rgba.mk 1 2 3 0] true 5
        = Except.error BatchFailure.noStitchesAfterAssignment) :=
  ⟨by decide,
    C7_no_opaque_pixels_amended.2.2 [Rgba.mk 1 2 3 0] true 5 (by decide)⟩

/-- C8 witness: two equal pixels, one distinct color, cap disabled —
the quantiser returns exactly that color. -/

theorem C8_small_sample_sets_unchanged_witness :
    ((0 : ℤ) ≤ 0 ∧ ([Rgb.mk 1 2 3, Rgb.mk 1 2 3] : List Rgb).length ≤ 250000 ∧
      (([Rgb.mk 1 2 3, Rgb.mk 1 2 3].map pack_rgb).dedup).length ≤ 4 ∧
      (∀ p ∈ [Rgb.mk 1 2 3, Rgb.mk 1 2 3], p.r < 256 ∧ p.g < 256 ∧ p.b < 256)) ∧
    (∃ out, _quantise_opaque_pixels (fun _ _ _ => PilResult.mk [] [])
        [Rgb.mk 1 2 3, Rgb.mk 1 2 3] 4 "median-cut" 0 = some out ∧
      (out.map (fun q => q.rgb)).Perm ([Rgb.mk 1 2 3, Rgb.mk 1 2 3].dedup)) :=
  ⟨⟨by decide, by decide, by decide, by decide⟩,
    C8_small_sample_sets_unchanged.2 (fun _ _ _ => PilResult.mk [] [])
      [Rgb.mk 1 2 3, Rgb.mk 1 2 3] 4 "median-cut" 0 (by decide) (by decide)
      (by decide) (by decide)⟩

/-- C9 witness: a trivial PIL primitive satisfies the contract, and
the quantiser result is bounded by `k = 1` on a one-pixel input. -/

theorem C9_quantize_at_most_k_colors_witness :
    ((1 ≤ 1) ∧ (∀ flat mid cols,
      (((fun _ _ _ => PilResult.mk [] []) : PilQuantizer) flat mid cols).colours.length
        ≤ cols)) ∧
    (∀ out, _quantise_opaque_pixels (fun _ _ _ => PilResult.mk [] [])
        [Rgb.mk 9 9 9] 1 "median-cut" 0 = some out → out.length ≤ 1) :=
  ⟨⟨by decide, fun _ _ _ => by simp⟩,
    C9_quantize_at_most_k_colors.2 (fun _ _ _ => PilResult.mk [] [])
      [Rgb.mk 9 9 9] 1 "median-cut" 0 (by decide) (fun _ _ _ => by simp)⟩
